import Mathlib

/-!
# gioui-ui-kit: a verification development

A shallow embedding of `cmd/ui-kit/uikit/uikit.go` (the style registry and the
widget library) and of `cmd/ui-kit/main.go` (the application state and the
per-frame event handler `handleEvents`).

Modelling conventions.

* `float32` quantities (`unit.Dp`, `unit.Sp`, the progress scalar) are exact
  rationals. The code only compares them, assigns constants to them and adds
  the constant step `0.002`; NaN is outside the model. Rounding is left out of
  `handleEvents.tick`, which is exact for a single step, and modelled in
  `handleEvents.tick32` (binary32, round to nearest, ties to even), which is
  used where the rounding accumulated over a run decides.
* `time.Time` is an integer count of nanoseconds and `time.Now()` is an input
  of the frame; `Time.Sub` is integer subtraction.
* A Go `string` is its sequence of bytes; `len` and slicing are byte-wise.
* `Clickable.Clicked(gtx)` is an input of the frame: one boolean per query.
* The iota enumerations are integers with named constants, as in Go, so that a
  `switch` without a matching case leaves the zero values in place.
-/

namespace UIKitDemo

/-- A Go string: its bytes. -/
abbrev GoString := List UInt8

/-- The Go string written as the literal `s` (Go source text is UTF-8). -/
def GoString.lit (s : String) : GoString := s.toUTF8.data.toList

/-! ## Style registry (`uikit.go`) -/

/-- Colour `color.NRGBA`: four 8-bit channels. -/
structure NRGBA where
  R : Nat
  G : Nat
  B : Nat
  A : Nat
  deriving DecidableEq

/-- Density-independent length `unit.Dp` (a `float32` in Go). -/
abbrev Dp := ℚ

/-- Scaled font size `unit.Sp` (a `float32` in Go). -/
abbrev Sp := ℚ

def BaseUnit : Dp := 4

def RadiusSmall : Dp := 4
def RadiusMedium : Dp := 8
def RadiusLarge : Dp := 12
def RadiusXL : Dp := 16

def ShadowSmall : Dp := 2
def ShadowMedium : Dp := 4
def ShadowLarge : Dp := 8

structure ColorPalette where
  Primary50 : NRGBA
  Primary100 : NRGBA
  Primary200 : NRGBA
  Primary300 : NRGBA
  Primary400 : NRGBA
  Primary500 : NRGBA
  Primary600 : NRGBA
  Primary700 : NRGBA
  Primary800 : NRGBA
  Primary900 : NRGBA
  Gray50 : NRGBA
  Gray100 : NRGBA
  Gray200 : NRGBA
  Gray300 : NRGBA
  Gray400 : NRGBA
  Gray500 : NRGBA
  Gray600 : NRGBA
  Gray700 : NRGBA
  Gray800 : NRGBA
  Gray900 : NRGBA
  Success : NRGBA
  SuccessLight : NRGBA
  Warning : NRGBA
  WarningLight : NRGBA
  Error : NRGBA
  ErrorLight : NRGBA
  Info : NRGBA
  InfoLight : NRGBA
  White : NRGBA
  Background : NRGBA
  Surface : NRGBA
  SurfaceElevated : NRGBA
  TextPrimary : NRGBA
  TextSecondary : NRGBA
  TextDisabled : NRGBA
  TextInverse : NRGBA
  Border : NRGBA
  BorderLight : NRGBA
  BorderHover : NRGBA
  Shadow : NRGBA
  Overlay : NRGBA
  Focus : NRGBA
  OnBackground : NRGBA
  OnSurface : NRGBA
  OnPrimary : NRGBA
  OnSecondary : NRGBA
  OnError : NRGBA
  OnSuccess : NRGBA
  OnWarning : NRGBA
  OnInfo : NRGBA
  OnSurfaceElevated : NRGBA
  OnSurfaceDisabled : NRGBA
  OnSurfaceVariant : NRGBA
  deriving DecidableEq

def NewColorPalette : ColorPalette where
  Primary50 := ⟨0xF8, 0xFA, 0xFC, 0xFF⟩
  Primary100 := ⟨0xF1, 0xF5, 0xF9, 0xFF⟩
  Primary200 := ⟨0xE2, 0xE8, 0xF0, 0xFF⟩
  Primary300 := ⟨0xCB, 0xD5, 0xE1, 0xFF⟩
  Primary400 := ⟨0x94, 0xA3, 0xB8, 0xFF⟩
  Primary500 := ⟨0x64, 0x74, 0x8B, 0xFF⟩
  Primary600 := ⟨0x47, 0x56, 0x69, 0xFF⟩
  Primary700 := ⟨0x33, 0x4E, 0x68, 0xFF⟩
  Primary800 := ⟨0x2D, 0x3F, 0x58, 0xFF⟩
  Primary900 := ⟨0x1E, 0x29, 0x3B, 0xFF⟩
  Gray50 := ⟨0xF9, 0xFA, 0xFB, 0xFF⟩
  Gray100 := ⟨0xF3, 0xF4, 0xF6, 0xFF⟩
  Gray200 := ⟨0xE5, 0xE7, 0xEB, 0xFF⟩
  Gray300 := ⟨0xD1, 0xD5, 0xDB, 0xFF⟩
  Gray400 := ⟨0x9C, 0xA3, 0xAF, 0xFF⟩
  Gray500 := ⟨0x6B, 0x72, 0x80, 0xFF⟩
  Gray600 := ⟨0x4B, 0x55, 0x63, 0xFF⟩
  Gray700 := ⟨0x37, 0x41, 0x51, 0xFF⟩
  Gray800 := ⟨0x1F, 0x29, 0x37, 0xFF⟩
  Gray900 := ⟨0x11, 0x18, 0x27, 0xFF⟩
  Success := ⟨0x10, 0xB9, 0x81, 0xFF⟩
  SuccessLight := ⟨0xD1, 0xFA, 0xE5, 0xFF⟩
  Warning := ⟨0xF5, 0x9E, 0x0B, 0xFF⟩
  WarningLight := ⟨0xFE, 0xF3, 0xC7, 0xFF⟩
  Error := ⟨0xEF, 0x44, 0x44, 0xFF⟩
  ErrorLight := ⟨0xFE, 0xE2, 0xE2, 0xFF⟩
  Info := ⟨0x38, 0x94, 0xF6, 0xFF⟩
  InfoLight := ⟨0xDB, 0xEA, 0xFE, 0xFF⟩
  White := ⟨0xFF, 0xFF, 0xFF, 0xFF⟩
  Background := ⟨0xF9, 0xFA, 0xFB, 0xFF⟩
  Surface := ⟨0xFF, 0xFF, 0xFF, 0xFF⟩
  SurfaceElevated := ⟨0xFF, 0xFF, 0xFF, 0xFF⟩
  TextPrimary := ⟨0x11, 0x18, 0x27, 0xFF⟩
  TextSecondary := ⟨0x6B, 0x72, 0x80, 0xFF⟩
  TextDisabled := ⟨0x9C, 0xA3, 0xAF, 0xFF⟩
  TextInverse := ⟨0xFF, 0xFF, 0xFF, 0xFF⟩
  Border := ⟨0xE5, 0xE7, 0xEB, 0xFF⟩
  BorderLight := ⟨0xF3, 0xF4, 0xF6, 0xFF⟩
  BorderHover := ⟨0xD1, 0xD5, 0xDB, 0xFF⟩
  Shadow := ⟨0x00, 0x00, 0x00, 0x0F⟩
  Overlay := ⟨0x00, 0x00, 0x00, 0x40⟩
  Focus := ⟨0x38, 0x94, 0xF6, 0x60⟩
  OnBackground := ⟨0x11, 0x18, 0x27, 0xFF⟩
  OnSurface := ⟨0x11, 0x18, 0x27, 0xFF⟩
  OnPrimary := ⟨0xFF, 0xFF, 0xFF, 0xFF⟩
  OnSecondary := ⟨0x11, 0x18, 0x27, 0xFF⟩
  OnError := ⟨0xFF, 0xFF, 0xFF, 0xFF⟩
  OnSuccess := ⟨0xFF, 0xFF, 0xFF, 0xFF⟩
  OnWarning := ⟨0x11, 0x18, 0x27, 0xFF⟩
  OnInfo := ⟨0xFF, 0xFF, 0xFF, 0xFF⟩
  OnSurfaceElevated := ⟨0x11, 0x18, 0x27, 0xFF⟩
  OnSurfaceDisabled := ⟨0x9C, 0xA3, 0xAF, 0xFF⟩
  OnSurfaceVariant := ⟨0x47, 0x56, 0x69, 0xFF⟩

structure Spacing where
  None : Dp
  Tiny : Dp
  Small : Dp
  Medium : Dp
  Large : Dp
  XLarge : Dp
  XXLarge : Dp
  XXXLarge : Dp
  deriving DecidableEq

def NewSpacing : Spacing where
  None := 0
  Tiny := BaseUnit
  Small := BaseUnit * 2
  Medium := BaseUnit * 4
  Large := BaseUnit * 6
  XLarge := BaseUnit * 8
  XXLarge := BaseUnit * 12
  XXXLarge := BaseUnit * 16

structure TypographyStyle where
  Size : Sp
  LineHeight : ℚ
  Weight : String
  deriving DecidableEq

structure Typography where
  DisplayLarge : TypographyStyle
  DisplayMedium : TypographyStyle
  DisplaySmall : TypographyStyle
  HeadlineLarge : TypographyStyle
  HeadlineMedium : TypographyStyle
  HeadlineSmall : TypographyStyle
  TitleLarge : TypographyStyle
  TitleMedium : TypographyStyle
  TitleSmall : TypographyStyle
  BodyLarge : TypographyStyle
  BodyMedium : TypographyStyle
  BodySmall : TypographyStyle
  LabelLarge : TypographyStyle
  LabelMedium : TypographyStyle
  LabelSmall : TypographyStyle
  deriving DecidableEq

def NewTypography : Typography where
  DisplayLarge := ⟨57, 64, "400"⟩
  DisplayMedium := ⟨45, 52, "400"⟩
  DisplaySmall := ⟨36, 44, "400"⟩
  HeadlineLarge := ⟨32, 40, "400"⟩
  HeadlineMedium := ⟨28, 36, "400"⟩
  HeadlineSmall := ⟨24, 32, "400"⟩
  TitleLarge := ⟨22, 28, "500"⟩
  TitleMedium := ⟨16, 24, "500"⟩
  TitleSmall := ⟨14, 20, "500"⟩
  BodyLarge := ⟨16, 24, "400"⟩
  BodyMedium := ⟨14, 20, "400"⟩
  BodySmall := ⟨12, 16, "400"⟩
  LabelLarge := ⟨14, 20, "500"⟩
  LabelMedium := ⟨12, 16, "500"⟩
  LabelSmall := ⟨11, 16, "500"⟩

/-- The kit: palette, spacing scale and type scale. The `*material.Theme` of
the Go struct belongs to the toolkit and plays no part in the properties below. -/
structure UIKit where
  Colors : ColorPalette
  Spacing : Spacing
  Typography : Typography
  deriving DecidableEq

def NewUIKit : UIKit where
  Colors := NewColorPalette
  Spacing := NewSpacing
  Typography := NewTypography

/-! ## Widget library (`uikit.go`) -/

/-- The value of the local `progress` of `UIKit.ProgressBar` after its two
clamping statements; it is the factor of `progressWidth`. -/
def UIKit.ProgressBar_progress (_kit : UIKit) (progress : ℚ) : ℚ :=
  let progress := if progress < 0 then 0 else progress
  let progress := if progress > 1 then 1 else progress
  progress

abbrev ButtonVariant := Int

def ButtonPrimary : ButtonVariant := 0
def ButtonSecondary : ButtonVariant := 1
def ButtonOutline : ButtonVariant := 2
def ButtonGhost : ButtonVariant := 3
def ButtonDanger : ButtonVariant := 4
def ButtonSuccess : ButtonVariant := 5

abbrev ButtonSize := Int

def ButtonSmall : ButtonSize := 0
def ButtonMedium : ButtonSize := 1
def ButtonLarge : ButtonSize := 2

/-- What `UIKit.Button` hands to the toolkit: the locals `bg`, `fg`, `inset`,
`fontSize`, `borderWidth`, `borderColor` at the `return`, and the label text. -/
structure ButtonStyle where
  bg : NRGBA
  fg : NRGBA
  inset : Dp
  fontSize : Sp
  borderWidth : Dp
  borderColor : NRGBA
  text : GoString
  deriving DecidableEq

/-- The size `switch` of `UIKit.Button`: `(inset, fontSize)`, the zero values
when no case matches. -/
def UIKit.Button_size (kit : UIKit) (size : ButtonSize) : Dp × Sp :=
  if size = ButtonSmall then (kit.Spacing.Small, kit.Typography.LabelSmall.Size)
  else if size = ButtonMedium then (kit.Spacing.Medium, kit.Typography.LabelMedium.Size)
  else if size = ButtonLarge then (kit.Spacing.Large, kit.Typography.LabelLarge.Size)
  else (0, 0)

/-- The variant `switch` of `UIKit.Button`: `(bg, fg, borderWidth, borderColor)`,
starting from `borderWidth = 0` and zero colours. -/
def UIKit.Button_variant (kit : UIKit) (variant : ButtonVariant) : NRGBA × NRGBA × Dp × NRGBA :=
  if variant = ButtonPrimary then (kit.Colors.Primary500, kit.Colors.OnPrimary, 0, ⟨0, 0, 0, 0⟩)
  else if variant = ButtonSecondary then (kit.Colors.Gray100, kit.Colors.OnSecondary, 0, ⟨0, 0, 0, 0⟩)
  else if variant = ButtonOutline then
    (⟨0, 0, 0, 0⟩, kit.Colors.Primary500, 1, kit.Colors.Primary500)
  else if variant = ButtonGhost then (⟨0, 0, 0, 0⟩, kit.Colors.Primary500, 0, ⟨0, 0, 0, 0⟩)
  else if variant = ButtonDanger then (kit.Colors.Error, kit.Colors.OnError, 0, ⟨0, 0, 0, 0⟩)
  else if variant = ButtonSuccess then (kit.Colors.Success, kit.Colors.OnSuccess, 0, ⟨0, 0, 0, 0⟩)
  else (⟨0, 0, 0, 0⟩, ⟨0, 0, 0, 0⟩, 0, ⟨0, 0, 0, 0⟩)

/-- Styling computed by `UIKit.Button`; `hovered` is the answer of `btn.Hovered()`. -/
def UIKit.Button (kit : UIKit) (hovered : Bool) (text : GoString) (variant : ButtonVariant)
    (size : ButtonSize) : ButtonStyle :=
  let (inset, fontSize) := kit.Button_size size
  let (bg, fg, borderWidth, borderColor) := kit.Button_variant variant
  let bg :=
    if hovered then
      if variant = ButtonPrimary then kit.Colors.Primary600
      else if variant = ButtonSecondary then kit.Colors.Gray200
      else bg
    else bg
  { bg := bg, fg := fg, inset := inset, fontSize := fontSize,
    borderWidth := borderWidth, borderColor := borderColor, text := text }

/-- The `(background, foreground, border)` triple of a button style. -/
def ButtonStyle.triple (b : ButtonStyle) : NRGBA × NRGBA × (Dp × NRGBA) :=
  (b.bg, b.fg, (b.borderWidth, b.borderColor))

/-- What `UIKit.Input` draws around the editor: the locals `borderColor` and `bg`. -/
structure InputStyle where
  borderColor : NRGBA
  bg : NRGBA
  deriving DecidableEq

/-- Styling computed by `UIKit.Input`; `focused` is the answer of `gtx.Focused(editor)`. -/
def UIKit.Input (kit : UIKit) (focused : Bool) (_hint : GoString) (hasError : Bool) : InputStyle :=
  let borderColor := kit.Colors.Border
  let bg := kit.Colors.Surface
  let borderColor := if hasError then kit.Colors.Error else borderColor
  let borderColor := if focused then kit.Colors.Primary500 else borderColor
  { borderColor := borderColor, bg := bg }

abbrev AlertVariant := Int

def AlertInfo : AlertVariant := 0
def AlertSuccess : AlertVariant := 1
def AlertWarning : AlertVariant := 2
def AlertError : AlertVariant := 3

/-! ## Application (`main.go`) -/

/-- Slice expression `s[i:j]`; `none` is the run-time panic for indices out of range. -/
def GoString.slice (s : GoString) (i j : Int) : Option GoString :=
  if 0 ≤ i ∧ i ≤ j ∧ j ≤ (s.length : Int) then some ((s.drop i.toNat).take (j - i).toNat)
  else none

/-- The loop of `contains` from index `i` with `n` turns left. -/
def contains.loop (s substr : GoString) : Nat → Nat → Option Bool
  | _, 0 => some false
  | i, n + 1 =>
    match s.slice i (i + substr.length) with
    | none => none
    | some w => if w = substr then some true else contains.loop s substr (i + 1) n

/-- Helper `contains(s, substr)`. The bounds of its `for` loop are fixed, so it
runs for `i = 0, ..., len(s) - len(substr)`: `len(s) - len(substr) + 1` turns, none
when that is not positive, unless it returns earlier. `none` is a panic. -/
def contains (s substr : GoString) : Option Bool :=
  contains.loop s substr 0 ((s.length : Int) - (substr.length : Int) + 1).toNat

/-- The flag `hasError` of `renderFormTab` for the e-mail text:
`len(text) > 0 && !contains(text, "@")`, the right operand evaluated only when
the left one holds. -/
def hasError (text : GoString) : Option Bool :=
  if text.length > 0 then (contains text (GoString.lit "@")).map (fun b => !b) else some false

/-- The byte of the character `@` (U+0040). In UTF-8 it is that single byte, and
no multi-byte sequence holds a byte below `0x80`: a text has the character `@`
exactly when its bytes hold `0x40`. -/
def atSign : UInt8 := 0x40

/-- Duration `time.Millisecond`, in nanoseconds. -/
def Millisecond : Int := 1000000

/-- The fields of `App` that `handleEvents` and the renderers read or write.
An editor is its text, a checkbox its `Value`, the slider its `Value`; the state
of a `Clickable` lives in the toolkit and reaches the code through `Frame`. -/
structure App where
  kit : UIKit
  nameEditor : GoString
  emailEditor : GoString
  messageEditor : GoString
  slider : ℚ
  checkbox1 : Bool
  checkbox2 : Bool
  checkbox3 : Bool
  progress : ℚ
  notification : GoString
  notificationType : AlertVariant
  showNotification : Bool
  formSubmitted : Bool
  selectedTab : Int
  animationStart : Int
  lastFrame : Int
  deriving DecidableEq

/-- Constructor `NewApp`; `t0` and `t1` are the two readings of `time.Now()`. -/
def NewApp (t0 t1 : Int) : App where
  kit := NewUIKit
  nameEditor := GoString.lit "John Doe"
  emailEditor := GoString.lit "john@example.com"
  messageEditor :=
    GoString.lit "This is a sample message to demonstrate the multi-line text editor component."
  slider := 1 / 2
  checkbox1 := false
  checkbox2 := false
  checkbox3 := false
  progress := 0
  notification := []
  notificationType := 0
  showNotification := false
  formSubmitted := false
  selectedTab := 0
  animationStart := t0
  lastFrame := t1

/-- What one call of `handleEvents` receives from the toolkit and the clock:
the answer of each `Clicked(gtx)` query, `freshClicked i` for the throwaway
clickable built at index `i` of the tab loop, and the reading `now` of `time.Now()`. -/
structure Frame where
  primaryBtn : Bool
  secondaryBtn : Bool
  outlineBtn : Bool
  dangerBtn : Bool
  successBtn : Bool
  submitBtn : Bool
  resetBtn : Bool
  freshClicked : Int → Bool
  now : Int

/-- The seven button blocks of `handleEvents`, in source order. -/
def handleEvents.buttons (a : App) (gtx : Frame) : App :=
  let a :=
    if gtx.primaryBtn then
      { a with showNotification := true
               notification := GoString.lit "Primary button clicked!"
               notificationType := AlertInfo }
    else a
  let a :=
    if gtx.secondaryBtn then
      { a with showNotification := true
               notification := GoString.lit "Secondary action performed"
               notificationType := AlertSuccess }
    else a
  let a :=
    if gtx.outlineBtn then
      { a with showNotification := true
               notification := GoString.lit "Outline button pressed"
               notificationType := AlertWarning }
    else a
  let a :=
    if gtx.dangerBtn then
      { a with showNotification := true
               notification := GoString.lit "Danger! This is a destructive action"
               notificationType := AlertError }
    else a
  let a :=
    if gtx.successBtn then
      { a with showNotification := true
               notification := GoString.lit "Success! Operation completed"
               notificationType := AlertSuccess }
    else a
  let a :=
    if gtx.submitBtn then
      { a with formSubmitted := true
               showNotification := true
               notification := GoString.lit "Form submitted successfully!"
               notificationType := AlertSuccess
               progress := 1 }
    else a
  let a :=
    if gtx.resetBtn then
      { a with nameEditor := GoString.lit ""
               emailEditor := GoString.lit ""
               messageEditor := GoString.lit ""
               formSubmitted := false
               progress := 0
               showNotification := true
               notification := GoString.lit "Form reset"
               notificationType := AlertInfo
               checkbox1 := false
               checkbox2 := false
               checkbox3 := false }
    else a
  a

/-- The tab loop of `handleEvents` over the remaining indices `is`. -/
def handleEvents.tabs (gtx : Frame) : App → List Int → App
  | a, [] => a
  | a, i :: is =>
    let a :=
      if a.selectedTab ≠ i then
        if gtx.freshClicked i then { a with selectedTab := i } else a
      else a
    handleEvents.tabs gtx a is

/-- The progress animation at the end of `handleEvents` (the tick phase). -/
def handleEvents.tick (a : App) (now : Int) : App :=
  if now - a.lastFrame > Millisecond * 50 then
    let a :=
      if !a.formSubmitted && decide (a.progress < 0.8) then
        { a with progress := a.progress + 0.002 }
      else a
    { a with lastFrame := now }
  else a

/-- Method `App.handleEvents`: button blocks, tab loop for `i = 0, 1, 2`, tick. -/
def handleEvents (a : App) (gtx : Frame) : App :=
  let a := handleEvents.buttons a gtx
  let a := handleEvents.tabs gtx a [0, 1, 2]
  handleEvents.tick a gtx.now

/-- The widgets that the toolkit rewrites from the user input while a frame is
rendered: the three editors, the slider and the three checkboxes. -/
structure Widgets where
  nameEditor : GoString
  emailEditor : GoString
  messageEditor : GoString
  slider : ℚ
  checkbox1 : Bool
  checkbox2 : Bool
  checkbox3 : Bool

/-- Method `App.Layout` as far as the state goes: `handleEvents`, then the render
pass, which writes no field of `App` itself but lets the toolkit update the
editors, the slider and the checkboxes; `w` is their content after the pass. -/
def App.Layout (a : App) (gtx : Frame) (w : Widgets) : App :=
  let a := handleEvents a gtx
  { a with nameEditor := w.nameEditor, emailEditor := w.emailEditor,
           messageEditor := w.messageEditor, slider := w.slider,
           checkbox1 := w.checkbox1, checkbox2 := w.checkbox2, checkbox3 := w.checkbox3 }

/-- Function `loop` up to the destroy event: the state after the frame events
`frames`, starting from `NewApp` built at clock readings `t0` and `t1`. -/
def run (t0 t1 : Int) (frames : List (Frame × Widgets)) : App :=
  frames.foldl (fun a f => a.Layout f.1 f.2) (NewApp t0 t1)

/-- The frame in which no clickable reports a click, at clock reading `now`. -/
def Frame.idle (now : Int) : Frame where
  primaryBtn := false
  secondaryBtn := false
  outlineBtn := false
  dangerBtn := false
  successBtn := false
  submitBtn := false
  resetBtn := false
  freshClicked := fun _ => false
  now := now

/-- No demo button (primary, secondary, outline, danger, success) reports a click. -/
def Frame.demoQuiet (gtx : Frame) : Prop :=
  gtx.primaryBtn = false ∧ gtx.secondaryBtn = false ∧ gtx.outlineBtn = false ∧
    gtx.dangerBtn = false ∧ gtx.successBtn = false

/-- No button of the application reports a click in this frame. -/
def Frame.noButton (gtx : Frame) : Prop :=
  gtx.demoQuiet ∧ gtx.submitBtn = false ∧ gtx.resetBtn = false

/-- Only the reset button reports a click in this frame. -/
def Frame.onlyReset (gtx : Frame) : Prop :=
  gtx.demoQuiet ∧ gtx.submitBtn = false ∧ gtx.resetBtn = true

/-- Only the submit button reports a click in this frame. -/
def Frame.onlySubmit (gtx : Frame) : Prop :=
  gtx.demoQuiet ∧ gtx.submitBtn = true ∧ gtx.resetBtn = false

/-- A state with `progress = 0.5` and the form not submitted. -/
def halfWay : App := { NewApp 0 0 with progress := 0.5 }

/-- A state with the form submitted (as the submit block leaves it). -/
def submitted : App := { NewApp 0 0 with progress := 1, formSubmitted := true }

/-- The frame at clock reading `now` in which only the reset button reports a click. -/
def Frame.reset (now : Int) : Frame := { Frame.idle now with resetBtn := true }

/-- The frame at clock reading `now` in which only the submit button reports a click. -/
def Frame.submit (now : Int) : Frame := { Frame.idle now with submitBtn := true }

/-- The three tab renderers that `renderCurrentTab` can call. -/
inductive TabContent where
  | renderComponentsTab
  | renderFormTab
  | renderSettingsTab
  deriving DecidableEq

/-- The branches of the `switch a.selectedTab` in `renderCurrentTab`. -/
inductive TabBranch where
  | case0
  | case1
  | case2
  | default
  deriving DecidableEq

/-- The branch of the `switch a.selectedTab` that `renderCurrentTab` takes. -/
def renderCurrentTab.branch (a : App) : TabBranch :=
  if a.selectedTab = 0 then TabBranch.case0
  else if a.selectedTab = 1 then TabBranch.case1
  else if a.selectedTab = 2 then TabBranch.case2
  else TabBranch.default

/-- Method `App.renderCurrentTab`: the renderer called by the branch taken. -/
def renderCurrentTab (a : App) : TabContent :=
  match renderCurrentTab.branch a with
  | TabBranch.case0 => TabContent.renderComponentsTab
  | TabBranch.case1 => TabContent.renderFormTab
  | TabBranch.case2 => TabContent.renderSettingsTab
  | TabBranch.default => TabContent.renderComponentsTab

/-- No throwaway clickable of the tab loop reports a click (what a zero-value
`widget.Clickable` answers). -/
def Frame.freshQuiet (gtx : Frame) : Prop :=
  ∀ i, gtx.freshClicked i = false

/-- The throwaway clickable of the tab loop reports a click at index `i` and at
no other index: the user selects tab `i`. -/
def Frame.selects (gtx : Frame) (i : Int) : Prop :=
  ∀ j, gtx.freshClicked j = decide (j = i)

/-- The frame at clock reading `now` whose only click is on tab `i`. -/
def Frame.tab (now : Int) (i : Int) : Frame :=
  { Frame.idle now with freshClicked := fun j => decide (j = i) }

/-- The answers of the seven `Clicked` queries of `handleEvents`, in source order:
primary, secondary, outline, danger, success, submit, reset. -/
def Frame.clicks (gtx : Frame) : List Bool :=
  [gtx.primaryBtn, gtx.secondaryBtn, gtx.outlineBtn, gtx.dangerBtn, gtx.successBtn,
    gtx.submitBtn, gtx.resetBtn]

/-- Only the button at position `k` of `Frame.clicks` reports a click. -/
def Frame.only (gtx : Frame) (k : Nat) : Prop :=
  gtx.clicks = (List.range 7).map (fun j => decide (j = k))

/-- The frame at clock reading `now` in which only the button at position `k` of
`Frame.clicks` reports a click. -/
def Frame.press (now : Int) (k : Nat) : Frame :=
  { Frame.idle now with
    primaryBtn := decide (0 = k), secondaryBtn := decide (1 = k), outlineBtn := decide (2 = k),
    dangerBtn := decide (3 = k), successBtn := decide (4 = k), submitBtn := decide (5 = k),
    resetBtn := decide (6 = k) }

/-- State `b` shows the notification `(msg, sev)` and has the form fields, the
checkboxes, `formSubmitted` and `selectedTab` of state `a`. -/
def App.notifies (a b : App) (msg : GoString) (sev : AlertVariant) : Prop :=
  b.showNotification = true ∧ b.notification = msg ∧ b.notificationType = sev ∧
    b.nameEditor = a.nameEditor ∧ b.emailEditor = a.emailEditor ∧
    b.messageEditor = a.messageEditor ∧
    b.checkbox1 = a.checkbox1 ∧ b.checkbox2 = a.checkbox2 ∧ b.checkbox3 = a.checkbox3 ∧
    b.formSubmitted = a.formSubmitted ∧ b.selectedTab = a.selectedTab

/-- The notification each button block of `handleEvents` writes, with the answer
of its `Clicked` query, in source order. -/
def handleEvents.handlers (gtx : Frame) : List (Bool × GoString × AlertVariant) :=
  [(gtx.primaryBtn, GoString.lit "Primary button clicked!", AlertInfo),
    (gtx.secondaryBtn, GoString.lit "Secondary action performed", AlertSuccess),
    (gtx.outlineBtn, GoString.lit "Outline button pressed", AlertWarning),
    (gtx.dangerBtn, GoString.lit "Danger! This is a destructive action", AlertError),
    (gtx.successBtn, GoString.lit "Success! Operation completed", AlertSuccess),
    (gtx.submitBtn, GoString.lit "Form submitted successfully!", AlertSuccess),
    (gtx.resetBtn, GoString.lit "Form reset", AlertInfo)]

/-- The last block in source order whose button reports a click, if any. -/
def handleEvents.lastHandler (gtx : Frame) : Option (Bool × GoString × AlertVariant) :=
  ((handleEvents.handlers gtx).filter (fun h => h.1)).getLast?

/-- A frame in which the primary, the danger, the submit and the reset button all
report a click. -/
def Frame.several (now : Int) : Frame :=
  { Frame.idle now with primaryBtn := true, dangerBtn := true, submitBtn := true,
                        resetBtn := true }

/-- Method `App.renderNotificationSection`: nothing when `showNotification` is
false, otherwise the title, message and variant handed to `kit.Alert`. It reads
the state and writes none of it. -/
def renderNotificationSection (a : App) : Option (GoString × GoString × AlertVariant) :=
  if !a.showNotification then none
  else some (GoString.lit "Notification", a.notification, a.notificationType)

/-- Some button with a block in `handleEvents` reports a click in this frame. -/
def Frame.anyClick (gtx : Frame) : Bool :=
  gtx.primaryBtn || gtx.secondaryBtn || gtx.outlineBtn || gtx.dangerBtn || gtx.successBtn ||
    gtx.submitBtn || gtx.resetBtn

/-- Widget contents used in sample runs: empty editors, slider at 0, boxes unchecked. -/
def Widgets.blank : Widgets := ⟨[], [], [], 0, false, false, false⟩

/-! ### Binary32 arithmetic of the progress scalar -/

/-- How often `n` is halved before it is below `2 ^ 24`, in at most `fuel` turns. -/
def F32.shiftAux : Nat → Nat → Nat
  | 0, _ => 0
  | fuel + 1, n => if n < 2 ^ 24 then 0 else F32.shiftAux fuel (n / 2) + 1

/-- Spacing exponent of binary32 at `n` units of `2 ^ -149`: with 24 significant
bits, the values representable around `n` are the multiples of `2 ^ shift n`
units. The 254 turns cover every finite binary32 (below `2 ^ 277` units). -/
def F32.shift (n : Nat) : Nat := F32.shiftAux 254 n

/-- The binary32 value nearest to the rational `q`, ties to the even significand:
the rounding Go applies to every `float32` operation and to a constant converted
to `float32`. Meant for `0 ≤ q` below the overflow threshold. -/
def F32.round (q : ℚ) : ℚ :=
  let x : ℚ := q * 2 ^ 149
  let sh : Nat := F32.shift ⌊x⌋.toNat
  let y : ℚ := x / 2 ^ sh
  let f : Int := ⌊y⌋
  let r : Int := if y - f > 1 / 2 ∨ (y - f = 1 / 2 ∧ f % 2 = 1) then f + 1 else f
  r * 2 ^ sh / 2 ^ 149

/-- The rounding `F32.round` on a whole number of units of `2 ^ -149`, in integer
arithmetic. -/
def F32.roundUnits (n : Nat) : Nat :=
  let sh := F32.shift n
  let f := n / 2 ^ sh
  let r := n % 2 ^ sh
  (if 2 * r > 2 ^ sh ∨ (2 * r = 2 ^ sh ∧ f % 2 = 1) then f + 1 else f) * 2 ^ sh

/-- The rational with `n` units of `2 ^ -149`. -/
def F32.ofUnits (n : Nat) : ℚ := n / 2 ^ 149

/-- The units of `float32(0.002)`, which is `8589935 * 2 ^ -32`. -/
def F32.u0_002 : Nat := 8589935 * 2 ^ 117

/-- The units of `float32(0.8)`, which is `13421773 * 2 ^ -24`. -/
def F32.u0_8 : Nat := 13421773 * 2 ^ 125

/-- One increment `progress += 0.002` in binary32, on units. -/
def F32.step (n : Nat) : Nat := F32.roundUnits (n + F32.u0_002)

/-- Each of the `n` values reached from `v` by increments, `v` included and the
last one excluded, is below `float32(0.8)` and not above its successor. -/
def F32.climbs : Nat → Nat → Bool
  | 0, _ => true
  | n + 1, v => decide (v < F32.u0_8) && decide (v ≤ F32.step v) && F32.climbs n (F32.step v)

/-- The progress animation of `handleEvents` in binary32 arithmetic, as Go runs it
on the `float32` field: the constants `0.8` and `0.002` are converted to
`float32` and the sum is rounded to `float32`. `handleEvents.tick` is the same
block in exact arithmetic. -/
def handleEvents.tick32 (a : App) (now : Int) : App :=
  if now - a.lastFrame > Millisecond * 50 then
    let a :=
      if !a.formSubmitted && decide (a.progress < F32.round 0.8) then
        { a with progress := F32.round (a.progress + F32.round 0.002) }
      else a
    { a with lastFrame := now }
  else a

/-- Method `App.handleEvents` with the tick in binary32 arithmetic. -/
def handleEvents32 (a : App) (gtx : Frame) : App :=
  let a := handleEvents.buttons a gtx
  let a := handleEvents.tabs gtx a [0, 1, 2]
  handleEvents.tick32 a gtx.now

/-- Method `App.Layout` as far as the state goes, with `handleEvents32`. -/
def App.Layout32 (a : App) (gtx : Frame) (w : Widgets) : App :=
  let a := handleEvents32 a gtx
  { a with nameEditor := w.nameEditor, emailEditor := w.emailEditor,
           messageEditor := w.messageEditor, slider := w.slider,
           checkbox1 := w.checkbox1, checkbox2 := w.checkbox2, checkbox3 := w.checkbox3 }

/-- Function `loop` up to the destroy event, with the tick in binary32 arithmetic. -/
def run32 (t0 t1 : Int) (frames : List (Frame × Widgets)) : App :=
  frames.foldl (fun a f => a.Layout32 f.1 f.2) (NewApp t0 t1)

/-- The run of `n` frames without a click, 60 ms apart. -/
def ticks (n : Nat) : List (Frame × Widgets) :=
  (List.range n).map (fun k => (Frame.idle (((k : Int) + 1) * 60000000), Widgets.blank))

/-! ## Auxiliary facts -/

theorem lit_empty : GoString.lit "" = [] := rfl

theorem idle_noButton (now : Int) : (Frame.idle now).noButton :=
  ⟨⟨rfl, rfl, rfl, rfl, rfl⟩, rfl, rfl⟩

theorem tick_other_fields (a : App) (now : Int) :
    ∃ p l, handleEvents.tick a now = { a with progress := p, lastFrame := l } := by
  unfold handleEvents.tick
  split_ifs
  · exact ⟨a.progress + 0.002, now, rfl⟩
  · exact ⟨a.progress, now, rfl⟩
  · exact ⟨a.progress, a.lastFrame, rfl⟩

theorem buttons_of_noButton (a : App) (gtx : Frame) (h : gtx.noButton) :
    handleEvents.buttons a gtx = a := by
  obtain ⟨⟨h1, h2, h3, h4, h5⟩, h6, h7⟩ := h
  simp [handleEvents.buttons, h1, h2, h3, h4, h5, h6, h7]

theorem tabs_only_selectedTab (gtx : Frame) (a : App) (is : List Int) :
    ∃ t, handleEvents.tabs gtx a is = { a with selectedTab := t } := by
  induction is generalizing a with
  | nil => exact ⟨a.selectedTab, rfl⟩
  | cons i is ih =>
    simp only [handleEvents.tabs]
    split_ifs
    · obtain ⟨t, ht⟩ := ih { a with selectedTab := i }
      exact ⟨t, ht⟩
    · exact ih a
    · exact ih a

theorem tick_progress (a : App) (now : Int) :
    (handleEvents.tick a now).progress =
      if now - a.lastFrame > Millisecond * 50 ∧ a.formSubmitted = false ∧ a.progress < 0.8
      then a.progress + 0.002 else a.progress := by
  unfold handleEvents.tick
  by_cases h1 : now - a.lastFrame > Millisecond * 50
  · by_cases h2 : a.formSubmitted = false <;> by_cases h3 : a.progress < 0.8 <;>
      simp [h1, h2, h3]
  · simp [h1]

theorem tick_formSubmitted (a : App) (now : Int) :
    (handleEvents.tick a now).formSubmitted = a.formSubmitted := by
  unfold handleEvents.tick
  split_ifs <;> rfl

theorem handleEvents_of_noButton (a : App) (gtx : Frame) (h : gtx.noButton) :
    (handleEvents a gtx).progress = (handleEvents.tick a gtx.now).progress ∧
      (handleEvents a gtx).formSubmitted = a.formSubmitted := by
  obtain ⟨t, ht⟩ := tabs_only_selectedTab gtx a [0, 1, 2]
  simp only [handleEvents, buttons_of_noButton a gtx h, ht, tick_progress, tick_formSubmitted]
  simp

theorem buttons_of_onlyReset (a : App) (gtx : Frame) (h : gtx.onlyReset) :
    handleEvents.buttons a gtx =
      { a with nameEditor := [], emailEditor := [], messageEditor := [],
               formSubmitted := false, progress := 0, showNotification := true,
               notification := GoString.lit "Form reset", notificationType := AlertInfo,
               checkbox1 := false, checkbox2 := false, checkbox3 := false } := by
  obtain ⟨⟨h1, h2, h3, h4, h5⟩, h6, h7⟩ := h
  simp [handleEvents.buttons, h1, h2, h3, h4, h5, h6, h7, lit_empty]

theorem buttons_of_onlySubmit (a : App) (gtx : Frame) (h : gtx.onlySubmit) :
    handleEvents.buttons a gtx =
      { a with formSubmitted := true, showNotification := true,
               notification := GoString.lit "Form submitted successfully!",
               notificationType := AlertSuccess, progress := 1 } := by
  obtain ⟨⟨h1, h2, h3, h4, h5⟩, h6, h7⟩ := h
  simp [handleEvents.buttons, h1, h2, h3, h4, h5, h6, h7]

theorem reset_onlyReset (now : Int) : (Frame.reset now).onlyReset :=
  ⟨⟨rfl, rfl, rfl, rfl, rfl⟩, rfl, rfl⟩

theorem submit_onlySubmit (now : Int) : (Frame.submit now).onlySubmit :=
  ⟨⟨rfl, rfl, rfl, rfl, rfl⟩, rfl, rfl⟩

/-- A call of `handleEvents` is its button blocks followed by a change of
`selectedTab` and by the tick. -/
theorem handleEvents_eq (a : App) (gtx : Frame) :
    ∃ t, handleEvents a gtx =
      handleEvents.tick { handleEvents.buttons a gtx with selectedTab := t } gtx.now := by
  obtain ⟨t, ht⟩ := tabs_only_selectedTab gtx (handleEvents.buttons a gtx) [0, 1, 2]
  exact ⟨t, by simp only [handleEvents, ht]⟩

theorem lit_at : GoString.lit "@" = [atSign] := by decide

theorem slice_one (s : GoString) (i : Nat) (h : i < s.length) :
    s.slice i (i + ([atSign] : GoString).length) = some [s[i]] := by
  unfold GoString.slice
  have h1 : (0 : Int) ≤ i ∧ (i : Int) ≤ i + ([atSign] : GoString).length ∧
      (i : Int) + ([atSign] : GoString).length ≤ s.length := by
    simp only [List.length_singleton]
    omega
  rw [if_pos h1]
  simp only [List.length_singleton, Int.toNat_ofNat, Nat.cast_one, add_sub_cancel_left]
  rw [List.drop_eq_getElem_cons h]
  rfl

/-- Searching for `@` from index `i` to the end of `s` answers whether the byte
occurs from `i` on, and never panics. -/
theorem loop_at (s : GoString) (n i : Nat) (h : i + n = s.length) :
    contains.loop s [atSign] i n = some (decide (atSign ∈ s.drop i)) := by
  induction n generalizing i with
  | zero =>
    have : s.drop i = [] := List.drop_eq_nil_of_le (by omega)
    simp [contains.loop, this]
  | succ n ih =>
    have hi : i < s.length := by omega
    rw [contains.loop, slice_one s i hi]
    simp only
    rw [List.drop_eq_getElem_cons hi, ih (i + 1) (by omega)]
    by_cases hc : s[i] = atSign
    · simp only [hc, if_true, List.mem_cons, true_or, decide_True]
    · have hc' : ¬ atSign = s[i] := fun e => hc e.symm
      have hl : ¬ ([s[i]] : GoString) = [atSign] := by simpa using hc
      simp only [hl, if_false, List.mem_cons, hc', false_or]

theorem contains_at (s : GoString) :
    contains s (GoString.lit "@") = some (decide (atSign ∈ s)) := by
  rw [lit_at]
  unfold contains
  have : ((s.length : Int) - (([atSign] : GoString).length : Int) + 1).toNat = s.length := by
    simp
  rw [this, loop_at s s.length 0 (by simp)]
  simp

theorem buttons_progress (a : App) (gtx : Frame) :
    (handleEvents.buttons a gtx).progress =
      if gtx.resetBtn then 0 else if gtx.submitBtn then 1 else a.progress := by
  obtain ⟨b1, b2, b3, b4, b5, b6, b7, f, now⟩ := gtx
  cases b7 <;> cases b6 <;> cases b1 <;> cases b2 <;> cases b3 <;> cases b4 <;> cases b5 <;> rfl

/-- One call of `handleEvents` keeps the progress scalar inside `[0, 1]`. -/
theorem handleEvents_progress_bounds (a : App) (gtx : Frame)
    (h : 0 ≤ a.progress ∧ a.progress ≤ 1) :
    0 ≤ (handleEvents a gtx).progress ∧ (handleEvents a gtx).progress ≤ 1 := by
  obtain ⟨t, ht⟩ := handleEvents_eq a gtx
  rw [ht, tick_progress]
  have hb : 0 ≤ (handleEvents.buttons a gtx).progress ∧
      (handleEvents.buttons a gtx).progress ≤ 1 := by
    rw [buttons_progress]
    split_ifs
    · exact ⟨le_refl _, zero_le_one⟩
    · exact ⟨zero_le_one, le_refl _⟩
    · exact h
  show 0 ≤ (if _ ∧ _ ∧ (handleEvents.buttons a gtx).progress < 0.8
      then (handleEvents.buttons a gtx).progress + 0.002
      else (handleEvents.buttons a gtx).progress) ∧ _ ≤ 1
  split_ifs with hc
  · obtain ⟨_, _, h3⟩ := hc
    constructor
    · have : (0 : ℚ) ≤ 0.002 := by norm_num
      linarith [hb.1]
    · have : (0.8 : ℚ) + 0.002 ≤ 1 := by norm_num
      linarith
  · exact hb

theorem buttons_selectedTab (a : App) (gtx : Frame) :
    (handleEvents.buttons a gtx).selectedTab = a.selectedTab := by
  obtain ⟨b1, b2, b3, b4, b5, b6, b7, f, now⟩ := gtx
  cases b7 <;> cases b6 <;> cases b1 <;> cases b2 <;> cases b3 <;> cases b4 <;> cases b5 <;>
    simp [handleEvents.buttons]

/-- The tab loop leaves the tab index or moves it to one of its indices. -/
theorem tabs_selectedTab_mem (gtx : Frame) (a : App) (is : List Int) :
    (handleEvents.tabs gtx a is).selectedTab = a.selectedTab ∨
      (handleEvents.tabs gtx a is).selectedTab ∈ is := by
  induction is generalizing a with
  | nil => exact Or.inl rfl
  | cons i is ih =>
    simp only [handleEvents.tabs]
    split_ifs
    · rcases ih { a with selectedTab := i } with h | h
      · exact Or.inr (by rw [h]; exact List.mem_cons_self _ _)
      · exact Or.inr (List.mem_cons_of_mem _ h)
    · rcases ih a with h | h
      · exact Or.inl h
      · exact Or.inr (List.mem_cons_of_mem _ h)
    · rcases ih a with h | h
      · exact Or.inl h
      · exact Or.inr (List.mem_cons_of_mem _ h)

theorem tabs_of_freshQuiet (gtx : Frame) (h : gtx.freshQuiet) (a : App) (is : List Int) :
    handleEvents.tabs gtx a is = a := by
  induction is generalizing a with
  | nil => rfl
  | cons i is ih =>
    simp only [handleEvents.tabs, h i]
    simpa using ih a

/-- The tab index after `handleEvents` is the one the tab loop computes from the
index before. -/
theorem handleEvents_selectedTab (a : App) (gtx : Frame) :
    (handleEvents a gtx).selectedTab =
      (handleEvents.tabs gtx (handleEvents.buttons a gtx) [0, 1, 2]).selectedTab := by
  obtain ⟨p, l, h⟩ := tick_other_fields
    (handleEvents.tabs gtx (handleEvents.buttons a gtx) [0, 1, 2]) gtx.now
  show (handleEvents.tick _ gtx.now).selectedTab = _
  rw [h]

theorem handleEvents_selectedTab_range (a : App) (gtx : Frame)
    (h : a.selectedTab = 0 ∨ a.selectedTab = 1 ∨ a.selectedTab = 2) :
    (handleEvents a gtx).selectedTab = 0 ∨ (handleEvents a gtx).selectedTab = 1 ∨
      (handleEvents a gtx).selectedTab = 2 := by
  rw [handleEvents_selectedTab]
  rcases tabs_selectedTab_mem gtx (handleEvents.buttons a gtx) [0, 1, 2] with e | e
  · rw [e, buttons_selectedTab]; exact h
  · simpa using e

theorem handleEvents_selectedTab_of_freshQuiet (a : App) (gtx : Frame) (h : gtx.freshQuiet) :
    (handleEvents a gtx).selectedTab = a.selectedTab := by
  rw [handleEvents_selectedTab, tabs_of_freshQuiet gtx h, buttons_selectedTab]

theorem idle_freshQuiet (now : Int) : (Frame.idle now).freshQuiet := fun _ => rfl

theorem tab_selects (now i : Int) : (Frame.tab now i).selects i := fun _ => rfl

/-- The tab loop of a frame that selects tab `i` sets the tab index to `i` and
writes nothing else. -/
theorem tabs_of_selects (gtx : Frame) (i : Int) (hi : i = 0 ∨ i = 1 ∨ i = 2)
    (hs : gtx.selects i) (a : App) :
    handleEvents.tabs gtx a [0, 1, 2] = { a with selectedTab := i } := by
  have h0 := hs 0
  have h1 := hs 1
  have h2 := hs 2
  rcases hi with rfl | rfl | rfl
  · simp only [handleEvents.tabs, h0, h1, h2]
    by_cases e : a.selectedTab = 0
    · cases a
      simp only at e
      subst e
      simp
    · simp [e]
  · simp only [handleEvents.tabs, h0, h1, h2]
    by_cases e : a.selectedTab = 1
    · cases a
      simp only at e
      subst e
      simp
    · simp [e]
  · simp only [handleEvents.tabs, h0, h1, h2]
    by_cases e : a.selectedTab = 2
    · cases a
      simp only at e
      subst e
      simp
    · simp [e]

theorem layout_progress (a : App) (gtx : Frame) (w : Widgets) :
    (a.Layout gtx w).progress = (handleEvents a gtx).progress := rfl

theorem layout_selectedTab (a : App) (gtx : Frame) (w : Widgets) :
    (a.Layout gtx w).selectedTab = (handleEvents a gtx).selectedTab := rfl

theorem run_snoc (t0 t1 : Int) (frames : List (Frame × Widgets)) (f : Frame × Widgets) :
    run t0 t1 (frames ++ [f]) = (run t0 t1 frames).Layout f.1 f.2 := by
  simp [run, List.foldl_append]

/-- After the button blocks, `handleEvents` writes only the tab index, progress
and `lastFrame`. -/
theorem handleEvents_fields (a : App) (gtx : Frame) :
    ∃ t p l, handleEvents a gtx =
      { handleEvents.buttons a gtx with selectedTab := t, progress := p, lastFrame := l } := by
  obtain ⟨t, ht⟩ := handleEvents_eq a gtx
  obtain ⟨p, l, hpl⟩ :=
    tick_other_fields { handleEvents.buttons a gtx with selectedTab := t } gtx.now
  exact ⟨t, p, l, by rw [ht, hpl]⟩

theorem press_only (now : Int) (k : Nat) : (Frame.press now k).only k := rfl

/-- A demo button pressed alone writes its notification and nothing else. -/
theorem buttons_of_only (a : App) (gtx : Frame) (k : Nat) (hk : k < 5) (h : gtx.only k) :
    handleEvents.buttons a gtx =
      { a with showNotification := true
               notification := ((handleEvents.handlers gtx).map (fun x => x.2.1)).getD k []
               notificationType := ((handleEvents.handlers gtx).map (fun x => x.2.2)).getD k 0 } := by
  simp only [Frame.only, Frame.clicks, List.range, List.range.loop, List.map] at h
  simp only [List.cons.injEq, and_true] at h
  obtain ⟨h1, h2, h3, h4, h5, h6, h7⟩ := h
  interval_cases k <;> simp at h1 h2 h3 h4 h5 h6 h7 <;>
    simp [handleEvents.buttons, handleEvents.handlers, h1, h2, h3, h4, h5, h6, h7]

/-- The reset block overwrites every field an earlier block may have written. -/
theorem buttons_of_reset (a : App) (gtx : Frame) (h : gtx.resetBtn = true) :
    handleEvents.buttons a gtx =
      { a with nameEditor := [], emailEditor := [], messageEditor := [],
               formSubmitted := false, progress := 0, showNotification := true,
               notification := GoString.lit "Form reset", notificationType := AlertInfo,
               checkbox1 := false, checkbox2 := false, checkbox3 := false } := by
  obtain ⟨b1, b2, b3, b4, b5, b6, b7, f, now⟩ := gtx
  simp only at h
  subst h
  cases b6 <;> cases b1 <;> cases b2 <;> cases b3 <;> cases b4 <;> cases b5 <;>
    simp [handleEvents.buttons, lit_empty]

/-- The notification after the button blocks is that of the last block whose
button reports a click, and the one before when no button does. -/
theorem buttons_lastHandler (a : App) (gtx : Frame) :
    ((handleEvents.buttons a gtx).notification, (handleEvents.buttons a gtx).notificationType,
        (handleEvents.buttons a gtx).showNotification) =
      match handleEvents.lastHandler gtx with
      | none => (a.notification, a.notificationType, a.showNotification)
      | some h => (h.2.1, h.2.2, true) := by
  obtain ⟨b1, b2, b3, b4, b5, b6, b7, f, now⟩ := gtx
  cases b7 <;> cases b6 <;> cases b5 <;> cases b4 <;> cases b3 <;> cases b2 <;> cases b1 <;>
    simp [handleEvents.buttons, handleEvents.lastHandler, handleEvents.handlers]

theorem slice_in_range (s : GoString) (i m : Nat) (h : i + m ≤ s.length) :
    s.slice i (i + m) = some ((s.drop i).take m) := by
  unfold GoString.slice
  have h1 : (0 : Int) ≤ i ∧ (i : Int) ≤ i + m ∧ (i : Int) + m ≤ s.length := by omega
  rw [if_pos h1]
  simp

/-- The loop of `contains`, started at `i` with the turns that remain up to
`len(s) - len(substr)`, does not panic and answers whether `substr` stands at one
of the indices it visits. -/
theorem loop_spec (s substr : GoString) (n i : Nat)
    (h : i + n + substr.length = s.length + 1) :
    ∃ b, contains.loop s substr i n = some b ∧
      (b = true ↔ ∃ j, i ≤ j ∧ j < i + n ∧ (s.drop j).take substr.length = substr) := by
  induction n generalizing i with
  | zero =>
    refine ⟨false, rfl, ?_⟩
    constructor
    · intro hb; cases hb
    · rintro ⟨j, h1, h2, _⟩; omega
  | succ n ih =>
    rw [contains.loop, slice_in_range s i substr.length (by omega)]
    by_cases hw : (s.drop i).take substr.length = substr
    · refine ⟨true, by simp only [hw, if_true], ?_⟩
      exact ⟨fun _ => ⟨i, le_refl _, by omega, hw⟩, fun _ => rfl⟩
    · obtain ⟨b, hb, hiff⟩ := ih (i + 1) (by omega)
      refine ⟨b, by simp only [hw, if_false]; exact hb, ?_⟩
      rw [hiff]
      constructor
      · rintro ⟨j, h1, h2, h3⟩
        exact ⟨j, by omega, by omega, h3⟩
      · rintro ⟨j, h1, h2, h3⟩
        have hne : j ≠ i := fun e => hw (e ▸ h3)
        exact ⟨j, by omega, by omega, h3⟩

/-- A text occurs in `s` exactly when it stands at one of the indices
`0, ..., len(s) - len(substr)`. -/
theorem infix_iff_window (s substr : GoString) (hl : substr.length ≤ s.length) :
    substr <:+: s ↔
      ∃ j, 0 ≤ j ∧ j < 0 + (s.length - substr.length + 1) ∧
        (s.drop j).take substr.length = substr := by
  constructor
  · rintro ⟨p, q, rfl⟩
    refine ⟨p.length, Nat.zero_le _, ?_, ?_⟩
    · simp only [List.length_append]; omega
    · simp [List.append_assoc]
  · rintro ⟨j, _, _, h3⟩
    have e := List.take_append_drop substr.length (s.drop j)
    rw [h3] at e
    refine ⟨s.take j, (s.drop j).drop substr.length, ?_⟩
    rw [List.append_assoc, e, List.take_append_drop]

theorem contains_spec (s substr : GoString) :
    contains s substr = some (decide (substr <:+: s)) := by
  unfold contains
  by_cases hl : substr.length ≤ s.length
  · have hn : ((s.length : Int) - (substr.length : Int) + 1).toNat =
        s.length - substr.length + 1 := by omega
    obtain ⟨b, hb, hiff⟩ := loop_spec s substr (s.length - substr.length + 1) 0 (by omega)
    rw [hn, hb, ← infix_iff_window s substr hl] at *
    congr 1
    cases b <;> simp_all
  · have hn : ((s.length : Int) - (substr.length : Int) + 1).toNat = 0 := by omega
    have hni : ¬ substr <:+: s := fun h => hl h.length_le
    rw [hn]
    simp [contains.loop, hni]

theorem buttons_showNotification (a : App) (gtx : Frame) :
    (handleEvents.buttons a gtx).showNotification = (a.showNotification || gtx.anyClick) := by
  obtain ⟨b1, b2, b3, b4, b5, b6, b7, f, now⟩ := gtx
  cases b7 <;> cases b6 <;> cases b5 <;> cases b4 <;> cases b3 <;> cases b2 <;> cases b1 <;>
    simp [handleEvents.buttons, Frame.anyClick]

/-- The flag `showNotification` after a frame: set before, or set by a button
block of this frame. No statement of `handleEvents` assigns it `false`. -/
theorem layout_showNotification (a : App) (gtx : Frame) (w : Widgets) :
    (a.Layout gtx w).showNotification = (a.showNotification || gtx.anyClick) := by
  obtain ⟨t, p, l, e⟩ := handleEvents_fields a gtx
  show (handleEvents a gtx).showNotification = _
  rw [e, ← buttons_showNotification]

theorem foldl_showNotification (fs : List (Frame × Widgets)) (a : App)
    (h : a.showNotification = true) :
    (fs.foldl (fun a f => a.Layout f.1 f.2) a).showNotification = true := by
  induction fs generalizing a with
  | nil => exact h
  | cons f fs ih =>
    rw [List.foldl_cons]
    exact ih _ (by rw [layout_showNotification, h]; rfl)

/-! ### Binary32 arithmetic -/

theorem floor_natCast_div (m d : Nat) : ⌊(m : ℚ) / (d : ℚ)⌋ = ((m / d : Nat) : Int) := by
  have h := Rat.floor_intCast_div_natCast (m : ℤ) d
  rw [Int.cast_natCast] at h
  rw [h]
  norm_cast

theorem frac_natCast_div (m d : Nat) (hd : 0 < d) :
    (m : ℚ) / (d : ℚ) - ((m / d : Nat) : ℚ) = ((m % d : Nat) : ℚ) / (d : ℚ) := by
  have h := Nat.div_add_mod m d
  have hq : (m : ℚ) = (d : ℚ) * ((m / d : Nat) : ℚ) + ((m % d : Nat) : ℚ) := by
    exact_mod_cast h.symm
  have hp : (d : ℚ) ≠ 0 := by positivity
  field_simp
  linarith

theorem half_cmp (r d : Nat) (hd : 0 < d) :
    ((r : ℚ) / (d : ℚ) > 1 / 2 ↔ 2 * r > d) ∧ ((r : ℚ) / (d : ℚ) = 1 / 2 ↔ 2 * r = d) := by
  have hp : (0 : ℚ) < d := by exact_mod_cast hd
  constructor
  · rw [gt_iff_lt, div_lt_div_iff₀ (by norm_num) hp]
    constructor
    · intro h
      have h2 : ((d : Nat) : ℚ) < ((2 * r : Nat) : ℚ) := by push_cast; linarith
      exact_mod_cast h2
    · intro h
      have h2 : ((d : Nat) : ℚ) < ((2 * r : Nat) : ℚ) := by exact_mod_cast h
      push_cast at h2; linarith
  · rw [div_eq_div_iff (ne_of_gt hp) (by norm_num)]
    constructor
    · intro h
      have h2 : ((2 * r : Nat) : ℚ) = ((d : Nat) : ℚ) := by push_cast; linarith
      exact_mod_cast h2
    · intro h
      have h2 : ((2 * r : Nat) : ℚ) = ((d : Nat) : ℚ) := by exact_mod_cast h
      push_cast at h2; linarith

theorem round_ofUnits (m : Nat) : F32.round (F32.ofUnits m) = F32.ofUnits (F32.roundUnits m) := by
  unfold F32.round F32.ofUnits F32.roundUnits
  have hx : (m : ℚ) / 2 ^ 149 * 2 ^ 149 = m := by field_simp
  have e : ∀ k : Nat, (2 : ℚ) ^ k = ((2 ^ k : Nat) : ℚ) := fun k => by push_cast; rfl
  simp only [hx, Int.floor_natCast, Int.toNat_ofNat]
  rw [e (F32.shift m)]
  have hd : 0 < 2 ^ F32.shift m := Nat.pow_pos (by norm_num)
  generalize 2 ^ F32.shift m = d at hd ⊢
  simp only [floor_natCast_div, Int.cast_natCast, frac_natCast_div m d hd, (half_cmp _ d hd).1,
    (half_cmp _ d hd).2]
  have c3 : (((m / d : Nat) : Int) % 2 = 1) ↔ (m / d) % 2 = 1 := by omega
  simp only [c3]
  split_ifs
  · simp only [Int.cast_add, Int.cast_natCast, Int.cast_one, Nat.cast_mul, Nat.cast_add,
      Nat.cast_one]
  · simp only [Int.cast_natCast, Nat.cast_mul]


theorem round_0_002 : F32.round 0.002 = F32.ofUnits F32.u0_002 := by
  unfold F32.round F32.ofUnits F32.u0_002
  have hf : ⌊(0.002 : ℚ) * 2 ^ 149⌋ = 1427247692705959881058285969449495136382746 := by
    rw [Int.floor_eq_iff]; constructor <;> norm_num
  have hs : F32.shift (1427247692705959881058285969449495136382746 : Int).toNat = 117 := by
    set_option maxRecDepth 100000 in decide
  simp only [hf, hs]
  have hy : ⌊(0.002 : ℚ) * 2 ^ 149 / 2 ^ 117⌋ = 8589934 := by
    rw [Int.floor_eq_iff]; constructor <;> norm_num
  simp only [hy]
  norm_num

theorem round_0_8 : F32.round 0.8 = F32.ofUnits F32.u0_8 := by
  unfold F32.round F32.ofUnits F32.u0_8
  have hf : ⌊(0.8 : ℚ) * 2 ^ 149⌋ = 570899077082383952423314387779798054553098649 := by
    rw [Int.floor_eq_iff]; constructor <;> norm_num
  have hs : F32.shift (570899077082383952423314387779798054553098649 : Int).toNat = 125 := by
    set_option maxRecDepth 100000 in decide
  simp only [hf, hs]
  have hy : ⌊(0.8 : ℚ) * 2 ^ 149 / 2 ^ 125⌋ = 13421772 := by
    rw [Int.floor_eq_iff]; constructor <;> norm_num
  simp only [hy]
  norm_num

/-- The spacing exponent is the right one: `n` has at most `24 + shift n` bits,
and exactly that many when the exponent is not zero. -/
theorem shiftAux_spec (fuel : Nat) : ∀ n : Nat, n < 2 ^ (24 + fuel) →
    n < 2 ^ (24 + F32.shiftAux fuel n) ∧
      (F32.shiftAux fuel n = 0 ∨ 2 ^ (23 + F32.shiftAux fuel n) ≤ n) := by
  induction fuel with
  | zero => intro n h; exact ⟨h, Or.inl rfl⟩
  | succ fuel ih =>
    intro n h
    by_cases hn : n < 2 ^ 24
    · have e : F32.shiftAux (fuel + 1) n = 0 := by
        rw [F32.shiftAux, if_pos hn]
      rw [e]
      exact ⟨hn, Or.inl rfl⟩
    · have e : F32.shiftAux (fuel + 1) n = F32.shiftAux fuel (n / 2) + 1 := by
        rw [F32.shiftAux, if_neg hn]
      rw [e]
      have hpow : ∀ k : Nat, 2 ^ (k + 1) = 2 ^ k * 2 := fun k => pow_succ 2 k
      have h2 : n / 2 < 2 ^ (24 + fuel) := by
        rw [Nat.div_lt_iff_lt_mul (by norm_num), ← hpow]
        exact h
      obtain ⟨i1, i2⟩ := ih (n / 2) h2
      generalize F32.shiftAux fuel (n / 2) = s at i1 i2 ⊢
      have hdm := Nat.div_add_mod n 2
      have hm := Nat.mod_lt n (show 2 > 0 by norm_num)
      constructor
      · have : 2 ^ (24 + (s + 1)) = 2 ^ (24 + s) * 2 := hpow (24 + s)
        rw [this]
        omega
      · right
        have e3 : 2 ^ (23 + (s + 1)) = 2 ^ (23 + s) * 2 := hpow (23 + s)
        rw [e3]
        rcases i2 with i2 | i2
        · subst i2
          have : 2 ^ (23 + 0) * 2 = 2 ^ 24 := by norm_num
          omega
        · omega

theorem climbs_succ (n v : Nat) :
    F32.climbs (n + 1) v = true ↔
      v < F32.u0_8 ∧ v ≤ F32.step v ∧ F32.climbs n (F32.step v) = true := by
  show (decide (v < F32.u0_8) && decide (v ≤ F32.step v) && F32.climbs n (F32.step v)) = true ↔ _
  rw [Bool.and_eq_true, Bool.and_eq_true, decide_eq_true_eq, decide_eq_true_eq, and_assoc]

theorem climbs_spec (n : Nat) : ∀ (v : Nat), F32.climbs n v = true → ∀ j, j < n →
    F32.step^[j] v < F32.u0_8 ∧ F32.step^[j] v ≤ F32.step^[j + 1] v := by
  induction n with
  | zero => intro v _ j hj; exact absurd hj (Nat.not_lt_zero j)
  | succ n ih =>
    intro v h j hj
    obtain ⟨h1, h2, h3⟩ := (climbs_succ n v).mp h
    cases j with
    | zero =>
      have e0 : F32.step^[0] v = v := Function.iterate_zero_apply F32.step v
      have e1 : F32.step^[0 + 1] v = F32.step v := by
        rw [Nat.zero_add]
        exact congrFun (Function.iterate_one F32.step) v
      rw [e1, e0]
      exact ⟨h1, h2⟩
    | succ j =>
      have key := ih (F32.step v) h3 j (Nat.lt_of_succ_lt_succ hj)
      have e1 : F32.step^[j + 1] v = F32.step^[j] (F32.step v) :=
        Function.iterate_succ_apply F32.step j v
      have e2 : F32.step^[j + 1 + 1] v = F32.step^[j + 1] (F32.step v) :=
        Function.iterate_succ_apply F32.step (j + 1) v
      rw [e1, e2]
      exact key

theorem climbs_trans (n m s : Nat) (hs : n + m = s) (w u : Nat) :
    ∀ v : Nat, (F32.climbs n v = true ∧ F32.step^[n] v = w) →
      (F32.climbs m w = true ∧ F32.step^[m] w = u) →
      F32.climbs s v = true ∧ F32.step^[s] v = u := by
  subst hs
  induction n with
  | zero =>
    intro v h1 h2
    have e := h1.2
    rw [Function.iterate_zero_apply] at e
    rw [Nat.zero_add, e]
    exact h2
  | succ n ih =>
    intro v h1 h2
    obtain ⟨a1, a2, a3⟩ := (climbs_succ n v).mp h1.1
    have e := h1.2
    rw [Function.iterate_succ_apply] at e
    obtain ⟨r1, r2⟩ := ih (F32.step v) ⟨a3, e⟩ h2
    rw [Nat.succ_add]
    exact ⟨(climbs_succ (n + m) v).mpr ⟨a1, a2, r1⟩, by
      rw [Function.iterate_succ_apply]; exact r2⟩

theorem climb_0 : F32.climbs 25 (0) = true ∧ F32.step^[25] (0) = 6710887 * 2 ^ 122 := by
  set_option maxRecDepth 100000 in decide

theorem climb_25 : F32.climbs 25 (6710887 * 2 ^ 122) = true ∧ F32.step^[25] (6710887 * 2 ^ 122) = 13421765 * 2 ^ 122 := by
  set_option maxRecDepth 100000 in decide

theorem climb_50 : F32.climbs 25 (13421765 * 2 ^ 122) = true ∧ F32.step^[25] (13421765 * 2 ^ 122) = 5033163 * 2 ^ 124 := by
  set_option maxRecDepth 100000 in decide

theorem climb_75 : F32.climbs 25 (5033163 * 2 ^ 124) = true ∧ F32.step^[25] (5033163 * 2 ^ 124) = 838861 * 2 ^ 127 := by
  set_option maxRecDepth 100000 in decide

theorem climb_100 : F32.climbs 25 (838861 * 2 ^ 127) = true ∧ F32.step^[25] (838861 * 2 ^ 127) = 8388613 * 2 ^ 124 := by
  set_option maxRecDepth 100000 in decide

theorem climb_125 : F32.climbs 25 (8388613 * 2 ^ 124) = true ∧ F32.step^[25] (8388613 * 2 ^ 124) = 5033169 * 2 ^ 125 := by
  set_option maxRecDepth 100000 in decide

theorem climb_150 : F32.climbs 25 (5033169 * 2 ^ 125) = true ∧ F32.step^[25] (5033169 * 2 ^ 125) = 11744063 * 2 ^ 124 := by
  set_option maxRecDepth 100000 in decide

theorem climb_175 : F32.climbs 25 (11744063 * 2 ^ 124) = true ∧ F32.step^[25] (11744063 * 2 ^ 124) = 3355447 * 2 ^ 126 := by
  set_option maxRecDepth 100000 in decide

theorem climb_200 : F32.climbs 25 (3355447 * 2 ^ 126) = true ∧ F32.step^[25] (3355447 * 2 ^ 126) = 15099513 * 2 ^ 124 := by
  set_option maxRecDepth 100000 in decide

theorem climb_225 : F32.climbs 25 (15099513 * 2 ^ 124) = true ∧ F32.step^[25] (15099513 * 2 ^ 124) = 8388619 * 2 ^ 125 := by
  set_option maxRecDepth 100000 in decide

theorem climb_250 : F32.climbs 25 (8388619 * 2 ^ 125) = true ∧ F32.step^[25] (8388619 * 2 ^ 125) = 9227469 * 2 ^ 125 := by
  set_option maxRecDepth 100000 in decide

theorem climb_275 : F32.climbs 25 (9227469 * 2 ^ 125) = true ∧ F32.step^[25] (9227469 * 2 ^ 125) = 10066319 * 2 ^ 125 := by
  set_option maxRecDepth 100000 in decide

theorem climb_300 : F32.climbs 25 (10066319 * 2 ^ 125) = true ∧ F32.step^[25] (10066319 * 2 ^ 125) = 10905169 * 2 ^ 125 := by
  set_option maxRecDepth 100000 in decide

theorem climb_325 : F32.climbs 25 (10905169 * 2 ^ 125) = true ∧ F32.step^[25] (10905169 * 2 ^ 125) = 11744019 * 2 ^ 125 := by
  set_option maxRecDepth 100000 in decide

theorem climb_350 : F32.climbs 25 (11744019 * 2 ^ 125) = true ∧ F32.step^[25] (11744019 * 2 ^ 125) = 12582869 * 2 ^ 125 := by
  set_option maxRecDepth 100000 in decide

theorem climb_375 : F32.climbs 25 (12582869 * 2 ^ 125) = true ∧ F32.step^[25] (12582869 * 2 ^ 125) = 13421719 * 2 ^ 125 := by
  set_option maxRecDepth 100000 in decide

theorem climb_400 : F32.climbs 1 (13421719 * 2 ^ 125) = true ∧ F32.step^[1] (13421719 * 2 ^ 125) = 13455273 * 2 ^ 125 := by
  set_option maxRecDepth 100000 in decide

/-- The first 400 increments from 0 each start below `float32(0.8)`; the 400th
value is `13421719 * 2 ^ -24`, about 0.7999968. -/
theorem climb_to_400 : F32.climbs 400 0 = true ∧ F32.step^[400] 0 = 13421719 * 2 ^ 125 :=
  (climbs_trans 375 25 400 rfl (12582869 * 2 ^ 125) (13421719 * 2 ^ 125) 0
    (climbs_trans 350 25 375 rfl (11744019 * 2 ^ 125) (12582869 * 2 ^ 125) 0
    (climbs_trans 325 25 350 rfl (10905169 * 2 ^ 125) (11744019 * 2 ^ 125) 0
    (climbs_trans 300 25 325 rfl (10066319 * 2 ^ 125) (10905169 * 2 ^ 125) 0
    (climbs_trans 275 25 300 rfl (9227469 * 2 ^ 125) (10066319 * 2 ^ 125) 0
    (climbs_trans 250 25 275 rfl (8388619 * 2 ^ 125) (9227469 * 2 ^ 125) 0
    (climbs_trans 225 25 250 rfl (15099513 * 2 ^ 124) (8388619 * 2 ^ 125) 0
    (climbs_trans 200 25 225 rfl (3355447 * 2 ^ 126) (15099513 * 2 ^ 124) 0
    (climbs_trans 175 25 200 rfl (11744063 * 2 ^ 124) (3355447 * 2 ^ 126) 0
    (climbs_trans 150 25 175 rfl (5033169 * 2 ^ 125) (11744063 * 2 ^ 124) 0
    (climbs_trans 125 25 150 rfl (8388613 * 2 ^ 124) (5033169 * 2 ^ 125) 0
    (climbs_trans 100 25 125 rfl (838861 * 2 ^ 127) (8388613 * 2 ^ 124) 0
    (climbs_trans 75 25 100 rfl (5033163 * 2 ^ 124) (838861 * 2 ^ 127) 0
    (climbs_trans 50 25 75 rfl (13421765 * 2 ^ 122) (5033163 * 2 ^ 124) 0
    (climbs_trans 25 25 50 rfl (6710887 * 2 ^ 122) (13421765 * 2 ^ 122) 0
    climb_0 climb_25) climb_50) climb_75) climb_100) climb_125) climb_150) climb_175) climb_200) climb_225) climb_250) climb_275) climb_300) climb_325) climb_350) climb_375)

/-- The 401st increment is taken too and gives `13455273 * 2 ^ -24`. -/
theorem climb_all : F32.climbs 401 0 = true ∧ F32.step^[401] 0 = 13455273 * 2 ^ 125 :=
  climbs_trans 400 1 401 rfl (13421719 * 2 ^ 125) (13455273 * 2 ^ 125) 0 climb_to_400 climb_400

theorem ofUnits_add (n m : Nat) : F32.ofUnits n + F32.ofUnits m = F32.ofUnits (n + m) := by
  unfold F32.ofUnits
  push_cast
  ring

theorem ofUnits_lt (n m : Nat) : F32.ofUnits n < F32.ofUnits m ↔ n < m := by
  unfold F32.ofUnits
  rw [div_lt_div_iff_of_pos_right (by positivity)]
  exact Nat.cast_lt

theorem ofUnits_le (n m : Nat) : F32.ofUnits n ≤ F32.ofUnits m ↔ n ≤ m := by
  unfold F32.ofUnits
  rw [div_le_div_iff_of_pos_right (by positivity)]
  exact Nat.cast_le

theorem step_def (n : Nat) : F32.roundUnits (n + F32.u0_002) = F32.step n := by
  unfold F32.step
  rfl

theorem tick32_progress (a : App) (now : Int) :
    (handleEvents.tick32 a now).progress =
      if now - a.lastFrame > Millisecond * 50 ∧ a.formSubmitted = false ∧
          a.progress < F32.round 0.8
      then F32.round (a.progress + F32.round 0.002) else a.progress := by
  unfold handleEvents.tick32
  by_cases h1 : now - a.lastFrame > Millisecond * 50
  · by_cases h2 : a.formSubmitted = false <;> by_cases h3 : a.progress < F32.round 0.8 <;>
      simp [h1, h2, h3]
  · simp [h1]

theorem tick32_formSubmitted (a : App) (now : Int) :
    (handleEvents.tick32 a now).formSubmitted = a.formSubmitted := by
  unfold handleEvents.tick32
  split_ifs <;> rfl

theorem tick32_lastFrame (a : App) (now : Int) :
    (handleEvents.tick32 a now).lastFrame =
      if now - a.lastFrame > Millisecond * 50 then now else a.lastFrame := by
  unfold handleEvents.tick32
  split_ifs <;> rfl

/-- The binary32 tick on a progress value of `n` units. -/
theorem tick32_units (a : App) (now : Int) (n : Nat) (h : a.progress = F32.ofUnits n) :
    (handleEvents.tick32 a now).progress =
      if now - a.lastFrame > Millisecond * 50 ∧ a.formSubmitted = false ∧ n < F32.u0_8
      then F32.ofUnits (F32.step n) else F32.ofUnits n := by
  rw [tick32_progress, h, round_0_8, round_0_002, ofUnits_add, round_ofUnits, step_def]
  simp only [ofUnits_lt]

theorem handleEvents32_of_noButton (a : App) (gtx : Frame) (h : gtx.noButton) :
    (handleEvents32 a gtx).progress = (handleEvents.tick32 a gtx.now).progress ∧
      (handleEvents32 a gtx).formSubmitted = a.formSubmitted ∧
      (handleEvents32 a gtx).lastFrame = (handleEvents.tick32 a gtx.now).lastFrame := by
  obtain ⟨t, ht⟩ := tabs_only_selectedTab gtx a [0, 1, 2]
  simp only [handleEvents32, buttons_of_noButton a gtx h, ht, tick32_progress,
    tick32_formSubmitted, tick32_lastFrame]
  exact ⟨trivial, trivial, trivial⟩

theorem layout32_progress (a : App) (gtx : Frame) (w : Widgets) :
    (a.Layout32 gtx w).progress = (handleEvents32 a gtx).progress := rfl

theorem layout32_formSubmitted (a : App) (gtx : Frame) (w : Widgets) :
    (a.Layout32 gtx w).formSubmitted = (handleEvents32 a gtx).formSubmitted := rfl

theorem layout32_lastFrame (a : App) (gtx : Frame) (w : Widgets) :
    (a.Layout32 gtx w).lastFrame = (handleEvents32 a gtx).lastFrame := rfl

theorem run32_snoc (t0 t1 : Int) (frames : List (Frame × Widgets)) (f : Frame × Widgets) :
    run32 t0 t1 (frames ++ [f]) = (run32 t0 t1 frames).Layout32 f.1 f.2 := by
  simp [run32, List.foldl_append]

theorem climb_fact (k : Nat) (hk : k < 401) :
    F32.step^[k] 0 < F32.u0_8 ∧ F32.step^[k] 0 ≤ F32.step^[k + 1] 0 :=
  climbs_spec 401 0 climb_all.1 k hk

theorem u0_8_le_top : F32.u0_8 ≤ 13455273 * 2 ^ 125 := by
  unfold F32.u0_8
  norm_num

theorem climb_le_top : ∀ d k : Nat, k + d = 401 → F32.step^[k] 0 ≤ 13455273 * 2 ^ 125 := by
  intro d
  induction d with
  | zero =>
    intro k hk
    rw [Nat.add_zero] at hk
    rw [hk, climb_all.2]
  | succ d ih =>
    intro k hk
    exact le_trans (climb_fact k (by omega)).2 (ih (k + 1) (by omega))

theorem ofUnits_top : F32.ofUnits (13455273 * 2 ^ 125) = 13455273 / 16777216 := by
  unfold F32.ofUnits
  norm_num

/-- A frame without a button click, in binary32: progress stays one of the
first 402 values of the increment sequence and does not decrease. -/
theorem idle_frame32 (a : App) (gtx : Frame) (hn : gtx.noButton) (k : Nat) (hk : k ≤ 401)
    (hp : a.progress = F32.ofUnits (F32.step^[k] 0)) :
    (∃ k2, k2 ≤ 401 ∧ (handleEvents32 a gtx).progress = F32.ofUnits (F32.step^[k2] 0)) ∧
      a.progress ≤ (handleEvents32 a gtx).progress := by
  rw [(handleEvents32_of_noButton a gtx hn).1, tick32_units a gtx.now _ hp, hp]
  by_cases c : gtx.now - a.lastFrame > Millisecond * 50 ∧ a.formSubmitted = false ∧
      F32.step^[k] 0 < F32.u0_8
  · rw [if_pos c]
    have hk2 : k < 401 := by
      rcases Nat.lt_or_ge k 401 with h | h
      · exact h
      · have e : k = 401 := Nat.le_antisymm hk h
        have c3 := c.2.2
        rw [e, climb_all.2] at c3
        exact absurd c3 (not_lt.mpr u0_8_le_top)
    have e : F32.step (F32.step^[k] 0) = F32.step^[k + 1] 0 :=
      (Function.iterate_succ_apply' F32.step k 0).symm
    rw [e]
    exact ⟨⟨k + 1, hk2, rfl⟩, (ofUnits_le _ _).mpr (climb_fact k hk2).2⟩
  · rw [if_neg c]
    exact ⟨⟨k, hk, rfl⟩, le_refl _⟩

theorem run32_idle (t0 t1 : Int) (frames : List (Frame × Widgets))
    (hn : ∀ f ∈ frames, f.1.noButton) :
    ∃ k, k ≤ 401 ∧ (run32 t0 t1 frames).progress = F32.ofUnits (F32.step^[k] 0) := by
  induction frames using List.reverseRecOn with
  | nil =>
    refine ⟨0, Nat.zero_le _, ?_⟩
    rw [Function.iterate_zero_apply]
    simp [run32, NewApp, F32.ofUnits]
  | append_singleton fs f ih =>
    obtain ⟨k, hk, hp⟩ := ih (fun g hg => hn g (List.mem_append_left _ hg))
    have hf : f.1.noButton := hn f (List.mem_append_right _ (List.mem_singleton_self f))
    obtain ⟨k2, hk2, hp2⟩ := (idle_frame32 _ f.1 hf k hk hp).1
    exact ⟨k2, hk2, by rw [run32_snoc, layout32_progress]; exact hp2⟩

theorem ticks_succ (n : Nat) :
    ticks (n + 1) = ticks n ++ [(Frame.idle (((n : Int) + 1) * 60000000), Widgets.blank)] := by
  simp [ticks, List.range_succ]

theorem ticks_noButton (n : Nat) : ∀ f ∈ ticks n, f.1.noButton := by
  intro f hf
  simp only [ticks, List.mem_map] at hf
  obtain ⟨k, _, rfl⟩ := hf
  exact idle_noButton _

/-- The run of `n ≤ 401` idle frames 60 ms apart takes one increment per frame. -/
theorem run32_ticks (n : Nat) (hn : n ≤ 401) :
    (run32 0 0 (ticks n)).progress = F32.ofUnits (F32.step^[n] 0) ∧
      (run32 0 0 (ticks n)).lastFrame = (n : Int) * 60000000 ∧
      (run32 0 0 (ticks n)).formSubmitted = false := by
  induction n with
  | zero =>
    refine ⟨?_, rfl, rfl⟩
    rw [Function.iterate_zero_apply]
    simp [run32, ticks, NewApp, F32.ofUnits]
  | succ n ih =>
    obtain ⟨hp, hl, hs⟩ := ih (by omega)
    have hb := handleEvents32_of_noButton (run32 0 0 (ticks n))
      (Frame.idle (((n : Int) + 1) * 60000000)) (idle_noButton _)
    have hnow : (Frame.idle (((n : Int) + 1) * 60000000)).now = ((n : Int) + 1) * 60000000 := rfl
    have hgate : ((n : Int) + 1) * 60000000 - (run32 0 0 (ticks n)).lastFrame >
        Millisecond * 50 := by
      rw [hl]
      unfold Millisecond
      omega
    rw [ticks_succ, run32_snoc, layout32_progress, layout32_lastFrame, layout32_formSubmitted,
      hb.1, hb.2.1, hb.2.2, hnow, tick32_lastFrame, if_pos hgate,
      tick32_units _ _ _ hp, if_pos ⟨hgate, hs, (climb_fact n (by omega)).1⟩]
    refine ⟨?_, ?_, hs⟩
    · rw [(Function.iterate_succ_apply' F32.step n 0).symm]
    · push_cast
      ring

/-! ## The claims -/

/-- C1: the fraction `ProgressBar` uses for the fill width is `min (max p 0) 1`
for every input `p`, so it lies in `[0, 1]`; `-0.3` gives `0`, `1.7` gives `1`, and
an input already in `[0, 1]` is used unchanged. -/
theorem progressBar_fraction_clamped (kit : UIKit) (p : ℚ) :
    kit.ProgressBar_progress p = min (max p 0) 1 ∧
      0 ≤ kit.ProgressBar_progress p ∧ kit.ProgressBar_progress p ≤ 1 ∧
      kit.ProgressBar_progress (-0.3) = 0 ∧ kit.ProgressBar_progress 1.7 = 1 ∧
      (0 ≤ p → p ≤ 1 → kit.ProgressBar_progress p = p) := by
  have key : ∀ q : ℚ, kit.ProgressBar_progress q = min (max q 0) 1 := by
    intro q
    unfold UIKit.ProgressBar_progress
    by_cases h0 : q < 0
    · have h1 : ¬ ((0 : ℚ) > 1) := by norm_num
      simp [h0, h1, max_eq_right (le_of_lt h0)]
    · have h0' : 0 ≤ q := not_lt.mp h0
      by_cases h1 : q > 1
      · simp [h0, h1, max_eq_left h0', min_eq_right (le_of_lt h1)]
      · simp [h0, h1, max_eq_left h0', min_eq_left (not_lt.mp h1)]
  refine ⟨key p, ?_, ?_, ?_, ?_, ?_⟩
  · rw [key]; exact le_min (le_max_right _ _) zero_le_one
  · rw [key]; exact min_le_right _ _
  · rw [key]; norm_num
  · rw [key]; norm_num
  · intro h0 h1
    rw [key, max_eq_left h0, min_eq_left h1]

/-- C2 (counterexample): at an elapsed time of exactly 50 ms the tick does not
run; from `progress = 0.5` with the form not submitted, progress stays `0.5`. -/
theorem tick_at_exactly_50ms_keeps_progress :
    halfWay.formSubmitted = false ∧ halfWay.progress = 0.5 ∧
      (50000000 : Int) - halfWay.lastFrame ≥ Millisecond * 50 ∧
      (handleEvents.tick halfWay 50000000).progress = 0.5 ∧
      (handleEvents.tick halfWay 50000000).progress ≠ 0.502 ∧
      (handleEvents halfWay (Frame.idle 50000000)).progress ≠ 0.502 := by
  have ht : (handleEvents.tick halfWay 50000000).progress = 0.5 := by
    rw [tick_progress]; norm_num [halfWay, NewApp, Millisecond]
  refine ⟨rfl, rfl, by norm_num [halfWay, NewApp, Millisecond], ht, ?_, ?_⟩
  · rw [ht]; norm_num
  · rw [(handleEvents_of_noButton _ _ (idle_noButton _)).1]
    show (handleEvents.tick halfWay 50000000).progress ≠ 0.502
    rw [ht]; norm_num

/-- C2 (amended): from `formSubmitted = false` and `progress = 0.5`, the tick
yields `progress = 0.502` for every elapsed time strictly greater than 50 ms,
and leaves `progress = 0.5` at 50 ms or less; the same holds for a whole call of
`handleEvents` in which no button is activated. -/
theorem tick_from_half (a : App) (gtx : Frame) (hs : a.formSubmitted = false)
    (hp : a.progress = 0.5) (hn : gtx.noButton) :
    (handleEvents.tick a gtx.now).progress =
        (if gtx.now - a.lastFrame > Millisecond * 50 then 0.502 else 0.5) ∧
      (handleEvents a gtx).progress =
        (if gtx.now - a.lastFrame > Millisecond * 50 then 0.502 else 0.5) := by
  have ht : (handleEvents.tick a gtx.now).progress =
      (if gtx.now - a.lastFrame > Millisecond * 50 then 0.502 else 0.5) := by
    rw [tick_progress, hp]
    by_cases he : gtx.now - a.lastFrame > Millisecond * 50
    · simp only [he, hs, true_and, if_true]; norm_num
    · simp [he]
  exact ⟨ht, by rw [(handleEvents_of_noButton a gtx hn).1, ht]⟩

theorem tick_from_half_witness :
    halfWay.formSubmitted = false ∧ halfWay.progress = 0.5 ∧ (Frame.idle 60000000).noButton ∧
      (handleEvents halfWay (Frame.idle 60000000)).progress = 0.502 := by
  refine ⟨rfl, rfl, idle_noButton _, ?_⟩
  have h := (tick_from_half halfWay (Frame.idle 60000000) rfl rfl (idle_noButton _)).2
  rw [h]
  norm_num [halfWay, NewApp, Millisecond, Frame.idle]

/-- C3: when `progress ≥ 0.8` or `formSubmitted = true`, the tick leaves progress
unchanged for every clock reading, and so does every run of calls of
`handleEvents` in which no button is activated. -/
theorem tick_frozen (a : App) (h : a.progress ≥ 0.8 ∨ a.formSubmitted = true)
    (gtxs : List Frame) (hn : ∀ g ∈ gtxs, g.noButton) :
    (∀ now, (handleEvents.tick a now).progress = a.progress) ∧
      (gtxs.foldl handleEvents a).progress = a.progress := by
  have one : ∀ b : App, (b.progress ≥ 0.8 ∨ b.formSubmitted = true) →
      ∀ now, (handleEvents.tick b now).progress = b.progress := by
    intro b hb now
    rw [tick_progress]
    rcases hb with hb | hb
    · have : ¬ b.progress < 0.8 := not_lt.mpr hb
      simp [this]
    · simp [hb]
  refine ⟨one a h, ?_⟩
  induction gtxs generalizing a with
  | nil => rfl
  | cons g gs ih =>
    have hg := handleEvents_of_noButton a g (hn g (List.mem_cons_self _ _))
    have hp : (handleEvents a g).progress = a.progress := by rw [hg.1, one a h]
    have h2 : (handleEvents a g).progress ≥ 0.8 ∨ (handleEvents a g).formSubmitted = true := by
      rw [hp, hg.2]; exact h
    rw [List.foldl_cons, ih (handleEvents a g) h2 (fun x hx => hn x (List.mem_cons_of_mem _ hx)), hp]

theorem tick_frozen_witness :
    (submitted.progress ≥ 0.8 ∨ submitted.formSubmitted = true) ∧
      ([Frame.idle 60000000, Frame.idle 120000000].foldl handleEvents submitted).progress =
        submitted.progress :=
  ⟨Or.inr rfl,
    (tick_frozen submitted (Or.inr rfl) [Frame.idle 60000000, Frame.idle 120000000]
      (by intro g hg; simp at hg; rcases hg with rfl | rfl <;> exact idle_noButton _)).2⟩

/-- C4 (counterexample): a frame with only the reset button activated, more than
50 ms after the last tick, ends with `progress = 0.002`, not `0`: the tick of the
same frame runs after the reset block. -/
theorem reset_frame_progress_not_zero :
    (Frame.reset 51000000).onlyReset ∧
      (handleEvents (NewApp 0 0) (Frame.reset 51000000)).progress = 0.002 ∧
      (handleEvents (NewApp 0 0) (Frame.reset 51000000)).progress ≠ 0 := by
  have hp : (handleEvents (NewApp 0 0) (Frame.reset 51000000)).progress = 0.002 := by
    obtain ⟨t, ht⟩ := handleEvents_eq (NewApp 0 0) (Frame.reset 51000000)
    rw [ht, tick_progress, buttons_of_onlyReset _ _ (reset_onlyReset _)]
    norm_num [NewApp, Frame.reset, Frame.idle, Millisecond]
  refine ⟨reset_onlyReset _, hp, ?_⟩
  rw [hp]; norm_num

/-- C4 (amended): after a frame in which only the reset button is activated, the
name, email and message fields are empty, the three checkboxes are false,
`formSubmitted` is false, `showNotification` is true, the notification is
"Form reset" with severity `AlertInfo`, and progress is `0` when at most 50 ms
have elapsed since the last tick and `0.002` otherwise. -/
theorem reset_frame (a : App) (gtx : Frame) (h : gtx.onlyReset) :
    (handleEvents a gtx).nameEditor = [] ∧ (handleEvents a gtx).emailEditor = [] ∧
      (handleEvents a gtx).messageEditor = [] ∧
      (handleEvents a gtx).checkbox1 = false ∧ (handleEvents a gtx).checkbox2 = false ∧
      (handleEvents a gtx).checkbox3 = false ∧
      (handleEvents a gtx).progress =
        (if gtx.now - a.lastFrame > Millisecond * 50 then 0.002 else 0) ∧
      (handleEvents a gtx).formSubmitted = false ∧
      (handleEvents a gtx).showNotification = true ∧
      (handleEvents a gtx).notification = GoString.lit "Form reset" ∧
      (handleEvents a gtx).notificationType = AlertInfo := by
  obtain ⟨t, ht⟩ := handleEvents_eq a gtx
  have hp := tick_progress { handleEvents.buttons a gtx with selectedTab := t } gtx.now
  obtain ⟨p, l, hpl⟩ := tick_other_fields { handleEvents.buttons a gtx with selectedTab := t } gtx.now
  rw [← ht] at hp hpl
  rw [buttons_of_onlyReset a gtx h] at hp hpl
  refine ⟨?_, ?_, ?_, ?_, ?_, ?_, ?_, ?_, ?_, ?_, ?_⟩
  case refine_7 =>
    rw [hp]
    by_cases he : gtx.now - a.lastFrame > Millisecond * 50
    · simp only [he, true_and, if_true]; norm_num
    · simp [he]
  all_goals rw [hpl]

theorem reset_frame_witness :
    (Frame.reset 10000000).onlyReset ∧
      (handleEvents submitted (Frame.reset 10000000)).progress = 0 ∧
      (handleEvents submitted (Frame.reset 10000000)).formSubmitted = false := by
  have h := reset_frame submitted (Frame.reset 10000000) (reset_onlyReset _)
  refine ⟨reset_onlyReset _, ?_, h.2.2.2.2.2.2.2.1⟩
  rw [h.2.2.2.2.2.2.1]
  norm_num [submitted, NewApp, Frame.reset, Frame.idle, Millisecond]

/-- C5: after a frame in which only the submit button is activated,
`formSubmitted = true`, `progress = 1` (the tick of the same frame leaves it),
`showNotification = true`, and the notification is "Form submitted successfully!"
with severity `AlertSuccess`. -/
theorem submit_frame (a : App) (gtx : Frame) (h : gtx.onlySubmit) :
    (handleEvents a gtx).formSubmitted = true ∧ (handleEvents a gtx).progress = 1 ∧
      (handleEvents a gtx).showNotification = true ∧
      (handleEvents a gtx).notificationType = AlertSuccess ∧
      (handleEvents a gtx).notification = GoString.lit "Form submitted successfully!" := by
  obtain ⟨t, ht⟩ := handleEvents_eq a gtx
  have hp := tick_progress { handleEvents.buttons a gtx with selectedTab := t } gtx.now
  obtain ⟨p, l, hpl⟩ := tick_other_fields { handleEvents.buttons a gtx with selectedTab := t } gtx.now
  rw [← ht] at hp hpl
  rw [buttons_of_onlySubmit a gtx h] at hp hpl
  refine ⟨?_, ?_, ?_, ?_, ?_⟩
  case refine_2 => rw [hp]; simp
  all_goals rw [hpl]

theorem submit_frame_witness :
    (Frame.submit 60000000).onlySubmit ∧
      (handleEvents halfWay (Frame.submit 60000000)).formSubmitted = true ∧
      (handleEvents halfWay (Frame.submit 60000000)).progress = 1 :=
  ⟨submit_onlySubmit _,
    (submit_frame halfWay (Frame.submit 60000000) (submit_onlySubmit _)).1,
    (submit_frame halfWay (Frame.submit 60000000) (submit_onlySubmit _)).2.1⟩

/-- C6: the e-mail error flag is computed without a panic and is true exactly
when the text is non-empty and holds no `@`; the empty text gives no error,
"abc" gives an error and "a@b" gives none. -/
theorem email_hasError (s : GoString) :
    hasError s = some (decide (s ≠ [] ∧ atSign ∉ s)) ∧
      (hasError s = some true ↔ (s ≠ [] ∧ atSign ∉ s)) ∧
      hasError (GoString.lit "") = some false ∧
      hasError (GoString.lit "abc") = some true ∧
      hasError (GoString.lit "a@b") = some false := by
  have key : hasError s = some (decide (s ≠ [] ∧ atSign ∉ s)) := by
    unfold hasError
    rw [contains_at]
    cases s with
    | nil => simp
    | cons b bs => simp
  refine ⟨key, ?_, by decide, by decide, by decide⟩
  rw [key]
  simp

/-- C7: without hover the `(background, foreground, border)` triple of a button
is a fixed table of the variant over the palette: Primary, Secondary, Outline,
Ghost, Danger and Success get the listed colours, only Outline has a border
(width 1, colour Primary500), and label and size do not enter the triple. -/
theorem button_variant_table (kit : UIKit) (text : GoString) (size : ButtonSize) :
    (kit.Button false text ButtonPrimary size).triple =
        (kit.Colors.Primary500, kit.Colors.OnPrimary, (0, ⟨0, 0, 0, 0⟩)) ∧
      (kit.Button false text ButtonSecondary size).triple =
        (kit.Colors.Gray100, kit.Colors.OnSecondary, (0, ⟨0, 0, 0, 0⟩)) ∧
      (kit.Button false text ButtonOutline size).triple =
        (⟨0, 0, 0, 0⟩, kit.Colors.Primary500, (1, kit.Colors.Primary500)) ∧
      (kit.Button false text ButtonGhost size).triple =
        (⟨0, 0, 0, 0⟩, kit.Colors.Primary500, (0, ⟨0, 0, 0, 0⟩)) ∧
      (kit.Button false text ButtonDanger size).triple =
        (kit.Colors.Error, kit.Colors.OnError, (0, ⟨0, 0, 0, 0⟩)) ∧
      (kit.Button false text ButtonSuccess size).triple =
        (kit.Colors.Success, kit.Colors.OnSuccess, (0, ⟨0, 0, 0, 0⟩)) ∧
      (∀ (variant : ButtonVariant) (text2 : GoString) (size2 : ButtonSize),
        (kit.Button false text variant size).triple =
          (kit.Button false text2 variant size2).triple) := by
  refine ⟨?_, ?_, ?_, ?_, ?_, ?_, ?_⟩
  all_goals first
    | (intro variant text2 size2; rfl)
    | (simp [UIKit.Button, UIKit.Button_variant, ButtonStyle.triple, ButtonPrimary,
        ButtonSecondary, ButtonOutline, ButtonGhost, ButtonDanger, ButtonSuccess])

/-- C8: for every variant other than Primary and Secondary the button style with
the pointer hovering is the style without hover; for Primary and Secondary hover
replaces only the background, by Primary600 and Gray200, and leaves foreground,
border and all else as they are. -/
theorem button_hover (kit : UIKit) (text : GoString) (size : ButtonSize)
    (variant : ButtonVariant) (h1 : variant ≠ ButtonPrimary) (h2 : variant ≠ ButtonSecondary) :
    kit.Button true text variant size = kit.Button false text variant size ∧
      (kit.Button true text variant size).triple = (kit.Button false text variant size).triple ∧
      kit.Button true text ButtonPrimary size =
        { kit.Button false text ButtonPrimary size with bg := kit.Colors.Primary600 } ∧
      kit.Button true text ButtonSecondary size =
        { kit.Button false text ButtonSecondary size with bg := kit.Colors.Gray200 } ∧
      (kit.Button true text ButtonPrimary size).triple =
        (kit.Colors.Primary600, kit.Colors.OnPrimary, (0, ⟨0, 0, 0, 0⟩)) ∧
      (kit.Button true text ButtonSecondary size).triple =
        (kit.Colors.Gray200, kit.Colors.OnSecondary, (0, ⟨0, 0, 0, 0⟩)) := by
  have hv : kit.Button true text variant size = kit.Button false text variant size := by
    simp [UIKit.Button, h1, h2]
  refine ⟨hv, by rw [hv], ?_, ?_, ?_, ?_⟩ <;>
    simp [UIKit.Button, UIKit.Button_variant, ButtonStyle.triple, ButtonPrimary,
      ButtonSecondary]

theorem button_hover_witness :
    ButtonOutline ≠ ButtonPrimary ∧ ButtonOutline ≠ ButtonSecondary ∧
      NewUIKit.Button true (GoString.lit "Outline") ButtonOutline ButtonMedium =
        NewUIKit.Button false (GoString.lit "Outline") ButtonOutline ButtonMedium :=
  ⟨by decide, by decide,
    (button_hover NewUIKit (GoString.lit "Outline") ButtonMedium ButtonOutline
      (by decide) (by decide)).1⟩

/-- C9 (counterexample): with the error flag set and the editor focused, the
border of `Input` is Primary500, not the error colour. -/
theorem input_focus_overrides_error :
    (NewUIKit.Input true (GoString.lit "your.email@example.com") true).borderColor =
        NewUIKit.Colors.Primary500 ∧
      (NewUIKit.Input true (GoString.lit "your.email@example.com") true).borderColor ≠
        NewUIKit.Colors.Error := by
  decide

/-- C9 (amended): the border colour of `Input` is Primary500 whenever the editor
is focused (also when the error flag is set), otherwise the error colour when the
flag is set, otherwise the default Border colour. -/
theorem input_border_priority (kit : UIKit) (focused : Bool) (hint : GoString)
    (hasError : Bool) :
    (kit.Input focused hint hasError).borderColor =
      if focused then kit.Colors.Primary500
      else if hasError then kit.Colors.Error
      else kit.Colors.Border := by
  cases focused <;> cases hasError <;> rfl

/-- C10: in every state reached from `NewApp` by any sequence of frames (any
button activations, any clock readings, any user input to the widgets), the
progress scalar satisfies `0 ≤ progress ≤ 1`. -/
theorem progress_in_unit_interval (t0 t1 : Int) (frames : List (Frame × Widgets)) :
    0 ≤ (run t0 t1 frames).progress ∧ (run t0 t1 frames).progress ≤ 1 := by
  have step : ∀ (fs : List (Frame × Widgets)) (a : App),
      (0 ≤ a.progress ∧ a.progress ≤ 1) →
      0 ≤ (fs.foldl (fun a f => a.Layout f.1 f.2) a).progress ∧
        (fs.foldl (fun a f => a.Layout f.1 f.2) a).progress ≤ 1 := by
    intro fs
    induction fs with
    | nil => intro a h; exact h
    | cons f fs ih =>
      intro a h
      rw [List.foldl_cons]
      exact ih _ (handleEvents_progress_bounds a f.1 h)
  exact step frames (NewApp t0 t1) ⟨le_refl _, zero_le_one⟩

/-- C11: in every state reached from `NewApp` by any sequence of frames the tab
index is 0, 1 or 2, and `renderCurrentTab` does not take its default branch. -/
theorem selectedTab_in_range (t0 t1 : Int) (frames : List (Frame × Widgets)) :
    ((run t0 t1 frames).selectedTab = 0 ∨ (run t0 t1 frames).selectedTab = 1 ∨
        (run t0 t1 frames).selectedTab = 2) ∧
      renderCurrentTab.branch (run t0 t1 frames) ≠ TabBranch.default := by
  have step : ∀ (fs : List (Frame × Widgets)) (a : App),
      (a.selectedTab = 0 ∨ a.selectedTab = 1 ∨ a.selectedTab = 2) →
      ((fs.foldl (fun a f => a.Layout f.1 f.2) a).selectedTab = 0 ∨
        (fs.foldl (fun a f => a.Layout f.1 f.2) a).selectedTab = 1 ∨
        (fs.foldl (fun a f => a.Layout f.1 f.2) a).selectedTab = 2) := by
    intro fs
    induction fs with
    | nil => intro a h; exact h
    | cons f fs ih =>
      intro a h
      rw [List.foldl_cons]
      exact ih _ (handleEvents_selectedTab_range a f.1 h)
  have hr := step frames (NewApp t0 t1) (Or.inl rfl)
  refine ⟨hr, ?_⟩
  unfold renderCurrentTab.branch
  rcases hr with h | h | h <;> simp [run, h]

/-- C12: selecting tab `i` (0, 1 or 2) through the tab loop sets the tab index to
`i` and nothing else; selecting it a second time leaves that state as it is, and
`renderCurrentTab` chooses the same content (0: Components, 1: Form,
2: Settings) after the first and the second selection, also when the second
selection is a whole call of `handleEvents`. -/
theorem tab_selection_idempotent (a : App) (gtx gtx2 : Frame) (i : Int)
    (hi : i = 0 ∨ i = 1 ∨ i = 2) (hs : gtx.selects i) (hs2 : gtx2.selects i) :
    handleEvents.tabs gtx a [0, 1, 2] = { a with selectedTab := i } ∧
      handleEvents.tabs gtx2 (handleEvents.tabs gtx a [0, 1, 2]) [0, 1, 2] =
        handleEvents.tabs gtx a [0, 1, 2] ∧
      renderCurrentTab (handleEvents.tabs gtx a [0, 1, 2]) =
        (if i = 0 then TabContent.renderComponentsTab
         else if i = 1 then TabContent.renderFormTab
         else TabContent.renderSettingsTab) ∧
      renderCurrentTab (handleEvents.tabs gtx2 (handleEvents.tabs gtx a [0, 1, 2]) [0, 1, 2]) =
        renderCurrentTab (handleEvents.tabs gtx a [0, 1, 2]) ∧
      renderCurrentTab (handleEvents (handleEvents.tabs gtx a [0, 1, 2]) gtx2) =
        renderCurrentTab (handleEvents.tabs gtx a [0, 1, 2]) := by
  have e1 := tabs_of_selects gtx i hi hs a
  have e2 := tabs_of_selects gtx2 i hi hs2 (handleEvents.tabs gtx a [0, 1, 2])
  have e3 : handleEvents.tabs gtx2 (handleEvents.tabs gtx a [0, 1, 2]) [0, 1, 2] =
      handleEvents.tabs gtx a [0, 1, 2] := by
    rw [e2, e1]
  have e4 : (handleEvents (handleEvents.tabs gtx a [0, 1, 2]) gtx2).selectedTab = i := by
    rw [handleEvents_selectedTab,
      tabs_of_selects gtx2 i hi hs2 (handleEvents.buttons (handleEvents.tabs gtx a [0, 1, 2]) gtx2)]
  refine ⟨e1, e3, ?_, by rw [e3], ?_⟩
  · rw [e1]
    rcases hi with rfl | rfl | rfl <;> rfl
  · unfold renderCurrentTab renderCurrentTab.branch
    rw [e4, e1]

theorem tab_selection_idempotent_witness :
    (Frame.tab 0 1).selects 1 ∧
      handleEvents.tabs (Frame.tab 0 1) (NewApp 0 0) [0, 1, 2] =
        { NewApp 0 0 with selectedTab := 1 } ∧
      handleEvents.tabs (Frame.tab 0 1)
          (handleEvents.tabs (Frame.tab 0 1) (NewApp 0 0) [0, 1, 2]) [0, 1, 2] =
        handleEvents.tabs (Frame.tab 0 1) (NewApp 0 0) [0, 1, 2] :=
  ⟨tab_selects 0 1,
    (tab_selection_idempotent (NewApp 0 0) (Frame.tab 0 1) (Frame.tab 0 1) 1
      (Or.inr (Or.inl rfl)) (tab_selects 0 1) (tab_selects 0 1)).1,
    (tab_selection_idempotent (NewApp 0 0) (Frame.tab 0 1) (Frame.tab 0 1) 1
      (Or.inr (Or.inl rfl)) (tab_selects 0 1) (tab_selects 0 1)).2.1⟩

/-- C13 (counterexample): in the run of 401 frames without a button click, 60 ms
apart, from the startup state, the binary32 progress is `13421719 / 2 ^ 24` (about
0.7999968, below `float32(0.8)`) after 400 frames, so a 401st increment is taken
and progress is `13455273 / 2 ^ 24` (about 0.80199677), above 0.8. -/
theorem progress_passes_cap :
    (∀ f ∈ ticks 401, f.1.noButton) ∧
      (run32 0 0 (ticks 400)).progress = 13421719 / 16777216 ∧
      (run32 0 0 (ticks 401)).progress = 13455273 / 16777216 ∧
      (run32 0 0 (ticks 401)).progress > 0.8 := by
  have h400 : (run32 0 0 (ticks 400)).progress = 13421719 / 16777216 := by
    rw [(run32_ticks 400 (by norm_num)).1, climb_to_400.2]
    unfold F32.ofUnits
    norm_num
  have h401 : (run32 0 0 (ticks 401)).progress = 13455273 / 16777216 := by
    rw [(run32_ticks 401 (le_refl _)).1, climb_all.2, ofUnits_top]
  refine ⟨ticks_noButton 401, h400, h401, ?_⟩
  rw [h401]
  norm_num

/-- C13 (amended): in every run from the startup state made of frames without a
button click, with any clock readings, the progress the code computes in
binary32 arithmetic never decreases from one frame to the next and never exceeds
`13455273 / 2 ^ 24` (about 0.80199677, below 0.802). -/
theorem progress_monotone_capped_binary32 (t0 t1 : Int) (frames : List (Frame × Widgets))
    (hn : ∀ f ∈ frames, f.1.noButton) (f : Frame × Widgets) (hf : f.1.noButton) :
    (run32 t0 t1 frames).progress ≤ (run32 t0 t1 (frames ++ [f])).progress ∧
      (run32 t0 t1 frames).progress ≤ 13455273 / 16777216 ∧
      (run32 t0 t1 (frames ++ [f])).progress ≤ 13455273 / 16777216 ∧
      (13455273 / 16777216 : ℚ) < 0.802 := by
  obtain ⟨k, hk, hp⟩ := run32_idle t0 t1 frames hn
  obtain ⟨⟨k2, hk2, hp2⟩, hmono⟩ := idle_frame32 _ f.1 hf k hk hp
  have b1 : F32.ofUnits (F32.step^[k] 0) ≤ 13455273 / 16777216 := by
    rw [← ofUnits_top, ofUnits_le]
    exact climb_le_top (401 - k) k (by omega)
  have b2 : F32.ofUnits (F32.step^[k2] 0) ≤ 13455273 / 16777216 := by
    rw [← ofUnits_top, ofUnits_le]
    exact climb_le_top (401 - k2) k2 (by omega)
  rw [run32_snoc, layout32_progress]
  refine ⟨hmono, ?_, ?_, by norm_num⟩
  · rw [hp]; exact b1
  · rw [hp2]; exact b2

theorem progress_monotone_capped_binary32_witness :
    (∀ f ∈ ticks 401, f.1.noButton) ∧
      (run32 0 0 (ticks 401)).progress ≤
        (run32 0 0 (ticks 401 ++ [(Frame.idle 30000000000, Widgets.blank)])).progress ∧
      (run32 0 0 (ticks 401 ++ [(Frame.idle 30000000000, Widgets.blank)])).progress ≤
        13455273 / 16777216 :=
  ⟨ticks_noButton 401,
    (progress_monotone_capped_binary32 0 0 (ticks 401) (ticks_noButton 401)
      (Frame.idle 30000000000, Widgets.blank) (idle_noButton _)).1,
    (progress_monotone_capped_binary32 0 0 (ticks 401) (ticks_noButton 401)
      (Frame.idle 30000000000, Widgets.blank) (idle_noButton _)).2.2.1⟩

/-- C14: the size of a button fixes its padding and font size: Small gives
`Spacing.Small` (8) and `LabelSmall` (11), Medium gives `Spacing.Medium` (16) and
`LabelMedium` (12), Large gives `Spacing.Large` (24) and `LabelLarge` (14), for
every variant, label and hover state; both are strictly increasing from Small to
Large. -/
theorem button_size_table (kit : UIKit) (hovered : Bool) (text : GoString)
    (variant : ButtonVariant) :
    ((kit.Button hovered text variant ButtonSmall).inset = kit.Spacing.Small ∧
        (kit.Button hovered text variant ButtonSmall).fontSize =
          kit.Typography.LabelSmall.Size) ∧
      ((kit.Button hovered text variant ButtonMedium).inset = kit.Spacing.Medium ∧
        (kit.Button hovered text variant ButtonMedium).fontSize =
          kit.Typography.LabelMedium.Size) ∧
      ((kit.Button hovered text variant ButtonLarge).inset = kit.Spacing.Large ∧
        (kit.Button hovered text variant ButtonLarge).fontSize =
          kit.Typography.LabelLarge.Size) ∧
      ((NewUIKit.Button hovered text variant ButtonSmall).inset = 8 ∧
        (NewUIKit.Button hovered text variant ButtonSmall).fontSize = 11) ∧
      ((NewUIKit.Button hovered text variant ButtonMedium).inset = 16 ∧
        (NewUIKit.Button hovered text variant ButtonMedium).fontSize = 12) ∧
      ((NewUIKit.Button hovered text variant ButtonLarge).inset = 24 ∧
        (NewUIKit.Button hovered text variant ButtonLarge).fontSize = 14) ∧
      (NewUIKit.Button hovered text variant ButtonSmall).inset <
        (NewUIKit.Button hovered text variant ButtonMedium).inset ∧
      (NewUIKit.Button hovered text variant ButtonMedium).inset <
        (NewUIKit.Button hovered text variant ButtonLarge).inset ∧
      (NewUIKit.Button hovered text variant ButtonSmall).fontSize <
        (NewUIKit.Button hovered text variant ButtonMedium).fontSize ∧
      (NewUIKit.Button hovered text variant ButtonMedium).fontSize <
        (NewUIKit.Button hovered text variant ButtonLarge).fontSize := by
  have hS : ∀ k : UIKit, (k.Button hovered text variant ButtonSmall).inset = k.Spacing.Small ∧
      (k.Button hovered text variant ButtonSmall).fontSize = k.Typography.LabelSmall.Size := by
    intro k
    simp [UIKit.Button, UIKit.Button_size, ButtonSmall]
  have hM : ∀ k : UIKit, (k.Button hovered text variant ButtonMedium).inset = k.Spacing.Medium ∧
      (k.Button hovered text variant ButtonMedium).fontSize = k.Typography.LabelMedium.Size := by
    intro k
    simp [UIKit.Button, UIKit.Button_size, ButtonSmall, ButtonMedium]
  have hL : ∀ k : UIKit, (k.Button hovered text variant ButtonLarge).inset = k.Spacing.Large ∧
      (k.Button hovered text variant ButtonLarge).fontSize = k.Typography.LabelLarge.Size := by
    intro k
    simp [UIKit.Button, UIKit.Button_size, ButtonSmall, ButtonMedium, ButtonLarge]
  have v1 : NewUIKit.Spacing.Small = 8 := by norm_num [NewUIKit, NewSpacing, BaseUnit]
  have v2 : NewUIKit.Spacing.Medium = 16 := by norm_num [NewUIKit, NewSpacing, BaseUnit]
  have v3 : NewUIKit.Spacing.Large = 24 := by norm_num [NewUIKit, NewSpacing, BaseUnit]
  have w1 : NewUIKit.Typography.LabelSmall.Size = 11 := rfl
  have w2 : NewUIKit.Typography.LabelMedium.Size = 12 := rfl
  have w3 : NewUIKit.Typography.LabelLarge.Size = 14 := rfl
  refine ⟨hS kit, hM kit, hL kit, ?_, ?_, ?_, ?_, ?_, ?_, ?_⟩
  · rw [(hS _).1, (hS _).2, v1, w1]; exact ⟨rfl, rfl⟩
  · rw [(hM _).1, (hM _).2, v2, w2]; exact ⟨rfl, rfl⟩
  · rw [(hL _).1, (hL _).2, v3, w3]; exact ⟨rfl, rfl⟩
  · rw [(hS _).1, (hM _).1, v1, v2]; norm_num
  · rw [(hM _).1, (hL _).1, v2, v3]; norm_num
  · rw [(hS _).2, (hM _).2, w1, w2]; norm_num
  · rw [(hM _).2, (hL _).2, w2, w3]; norm_num

/-- C15: every value of `NewSpacing` is a whole multiple of `BaseUnit` (4):
None = 0, Tiny = 4, Small = 8, Medium = 16, Large = 24, XLarge = 32,
XXLarge = 48, XXXLarge = 64, strictly increasing in that order. -/
theorem spacing_scale :
    BaseUnit = 4 ∧
      (NewSpacing.None = (0 : Nat) * BaseUnit ∧ NewSpacing.None = 0) ∧
      (NewSpacing.Tiny = (1 : Nat) * BaseUnit ∧ NewSpacing.Tiny = 4) ∧
      (NewSpacing.Small = (2 : Nat) * BaseUnit ∧ NewSpacing.Small = 8) ∧
      (NewSpacing.Medium = (4 : Nat) * BaseUnit ∧ NewSpacing.Medium = 16) ∧
      (NewSpacing.Large = (6 : Nat) * BaseUnit ∧ NewSpacing.Large = 24) ∧
      (NewSpacing.XLarge = (8 : Nat) * BaseUnit ∧ NewSpacing.XLarge = 32) ∧
      (NewSpacing.XXLarge = (12 : Nat) * BaseUnit ∧ NewSpacing.XXLarge = 48) ∧
      (NewSpacing.XXXLarge = (16 : Nat) * BaseUnit ∧ NewSpacing.XXXLarge = 64) ∧
      NewSpacing.None < NewSpacing.Tiny ∧ NewSpacing.Tiny < NewSpacing.Small ∧
      NewSpacing.Small < NewSpacing.Medium ∧ NewSpacing.Medium < NewSpacing.Large ∧
      NewSpacing.Large < NewSpacing.XLarge ∧ NewSpacing.XLarge < NewSpacing.XXLarge ∧
      NewSpacing.XXLarge < NewSpacing.XXXLarge := by
  refine ⟨rfl, ?_, ?_, ?_, ?_, ?_, ?_, ?_, ?_, ?_, ?_, ?_, ?_, ?_, ?_, ?_⟩ <;>
    norm_num [NewSpacing, BaseUnit]

/-- C16: when the time elapsed since `lastFrame` does not exceed 50 ms the tick
changes nothing, in particular neither progress nor `lastFrame`; when it exceeds
50 ms the tick sets `lastFrame` to the current time, whether progress is
incremented (form not submitted and progress below 0.8) or left as it is. -/
theorem tick_rate_limit (a : App) (now : Int) :
    (now - a.lastFrame ≤ Millisecond * 50 → handleEvents.tick a now = a) ∧
      (now - a.lastFrame > Millisecond * 50 →
        (handleEvents.tick a now).lastFrame = now ∧
        (handleEvents.tick a now).progress =
          (if a.formSubmitted = false ∧ a.progress < 0.8 then a.progress + 0.002
           else a.progress)) ∧
      (handleEvents.tick a now).lastFrame =
        (if now - a.lastFrame > Millisecond * 50 then now else a.lastFrame) := by
  have hl : (handleEvents.tick a now).lastFrame =
      (if now - a.lastFrame > Millisecond * 50 then now else a.lastFrame) := by
    unfold handleEvents.tick
    split_ifs <;> rfl
  refine ⟨?_, ?_, hl⟩
  · intro h
    unfold handleEvents.tick
    rw [if_neg (not_lt.mpr h)]
  · intro h
    refine ⟨by rw [hl, if_pos h], ?_⟩
    rw [tick_progress]
    simp only [h, true_and]

theorem tick_rate_limit_witness :
    handleEvents.tick halfWay 50000000 = halfWay ∧
      (handleEvents.tick halfWay 60000000).lastFrame = 60000000 ∧
      (handleEvents.tick submitted 60000000).lastFrame = 60000000 :=
  ⟨(tick_rate_limit halfWay 50000000).1 (by decide),
    ((tick_rate_limit halfWay 60000000).2.1 (by decide)).1,
    ((tick_rate_limit submitted 60000000).2.1 (by decide)).1⟩

/-- C17: given that the throwaway clickables of the tab loop report no click,
`handleEvents` leaves `selectedTab` as it was, for every state and every other
input of the frame; so in every state reached from `NewApp` by such frames
`selectedTab = 0`. -/
theorem tab_never_switches (t0 t1 : Int) (frames : List (Frame × Widgets))
    (h : ∀ f ∈ frames, f.1.freshQuiet) :
    (∀ (a : App) (gtx : Frame), gtx.freshQuiet →
        (handleEvents a gtx).selectedTab = a.selectedTab) ∧
      (run t0 t1 frames).selectedTab = 0 := by
  refine ⟨handleEvents_selectedTab_of_freshQuiet, ?_⟩
  induction frames using List.reverseRecOn with
  | nil => rfl
  | append_singleton fs f ih =>
    rw [run_snoc, layout_selectedTab,
      handleEvents_selectedTab_of_freshQuiet _ _
        (h f (List.mem_append_right _ (List.mem_singleton_self f)))]
    exact ih (fun g hg => h g (List.mem_append_left _ hg))

theorem tab_never_switches_witness :
    (Frame.submit 60000000).freshQuiet ∧
      (run 0 0 [(Frame.submit 60000000, ⟨[], [], [], 0, false, false, false⟩)]).selectedTab = 0 :=
  ⟨fun _ => rfl,
    (tab_never_switches 0 0 [(Frame.submit 60000000, ⟨[], [], [], 0, false, false, false⟩)]
      (by intro g hg; simp at hg; rw [hg]; exact fun _ => rfl)).2⟩

/-- C18: a frame in which only one demo button is activated (no other button and
no throwaway tab clickable) ends with `showNotification = true` and with the
message and severity of that button: primary, secondary, outline, danger and
success give the five listed pairs; the form fields, the checkboxes,
`formSubmitted` and `selectedTab` are as before the frame. -/
theorem demo_button_notifies (a : App) (gtx : Frame) (hf : gtx.freshQuiet) :
    (gtx.only 0 →
        a.notifies (handleEvents a gtx) (GoString.lit "Primary button clicked!") AlertInfo) ∧
      (gtx.only 1 →
        a.notifies (handleEvents a gtx) (GoString.lit "Secondary action performed")
          AlertSuccess) ∧
      (gtx.only 2 →
        a.notifies (handleEvents a gtx) (GoString.lit "Outline button pressed") AlertWarning) ∧
      (gtx.only 3 →
        a.notifies (handleEvents a gtx) (GoString.lit "Danger! This is a destructive action")
          AlertError) ∧
      (gtx.only 4 →
        a.notifies (handleEvents a gtx) (GoString.lit "Success! Operation completed")
          AlertSuccess) := by
  have key : ∀ k, k < 5 → gtx.only k →
      a.notifies (handleEvents a gtx)
        (((handleEvents.handlers gtx).map (fun x => x.2.1)).getD k [])
        (((handleEvents.handlers gtx).map (fun x => x.2.2)).getD k 0) := by
    intro k hk h
    obtain ⟨t, p, l, e⟩ := handleEvents_fields a gtx
    have hb := buttons_of_only a gtx k hk h
    have ht := handleEvents_selectedTab_of_freshQuiet a gtx hf
    unfold App.notifies
    refine ⟨?_, ?_, ?_, ?_, ?_, ?_, ?_, ?_, ?_, ?_, ht⟩ <;> rw [e, hb]
  exact ⟨key 0 (by norm_num), key 1 (by norm_num), key 2 (by norm_num), key 3 (by norm_num),
    key 4 (by norm_num)⟩

theorem demo_button_notifies_witness :
    (Frame.press 0 0).freshQuiet ∧ (Frame.press 0 3).freshQuiet ∧
      (NewApp 0 0).notifies (handleEvents (NewApp 0 0) (Frame.press 0 0))
        (GoString.lit "Primary button clicked!") AlertInfo ∧
      (NewApp 0 0).notifies (handleEvents (NewApp 0 0) (Frame.press 0 3))
        (GoString.lit "Danger! This is a destructive action") AlertError :=
  ⟨fun _ => rfl, fun _ => rfl,
    (demo_button_notifies (NewApp 0 0) (Frame.press 0 0) (fun _ => rfl)).1 (press_only 0 0),
    (demo_button_notifies (NewApp 0 0) (Frame.press 0 3) (fun _ => rfl)).2.2.2.1
      (press_only 0 3)⟩

/-- C20: when the submit and the reset button are both activated in one frame the
reset wins: after the frame `formSubmitted = false`, the form fields are empty,
the checkboxes are false, the notification is "Form reset" with severity
`AlertInfo`, progress is 0 before the tick and at most 0.002 after it. In every
frame the notification shown is that of the last block in source order whose
button is activated. -/
theorem same_frame_precedence (a : App) (gtx : Frame) :
    (gtx.submitBtn = true → gtx.resetBtn = true →
        (handleEvents a gtx).formSubmitted = false ∧
        (handleEvents a gtx).nameEditor = [] ∧ (handleEvents a gtx).emailEditor = [] ∧
        (handleEvents a gtx).messageEditor = [] ∧
        (handleEvents a gtx).checkbox1 = false ∧ (handleEvents a gtx).checkbox2 = false ∧
        (handleEvents a gtx).checkbox3 = false ∧
        (handleEvents a gtx).showNotification = true ∧
        (handleEvents a gtx).notification = GoString.lit "Form reset" ∧
        (handleEvents a gtx).notificationType = AlertInfo ∧
        (handleEvents.buttons a gtx).progress = 0 ∧
        0 ≤ (handleEvents a gtx).progress ∧ (handleEvents a gtx).progress ≤ 0.002) ∧
      ((handleEvents a gtx).notification, (handleEvents a gtx).notificationType,
          (handleEvents a gtx).showNotification) =
        (match handleEvents.lastHandler gtx with
         | none => (a.notification, a.notificationType, a.showNotification)
         | some h => (h.2.1, h.2.2, true)) := by
  obtain ⟨t, p, l, e⟩ := handleEvents_fields a gtx
  constructor
  · intro _ hr
    have hb := buttons_of_reset a gtx hr
    obtain ⟨t2, ht2⟩ := handleEvents_eq a gtx
    have hp := tick_progress { handleEvents.buttons a gtx with selectedTab := t2 } gtx.now
    rw [← ht2] at hp
    have hp0 : (handleEvents.buttons a gtx).progress = 0 := by rw [hb]
    have hp1 : 0 ≤ (handleEvents a gtx).progress ∧ (handleEvents a gtx).progress ≤ 0.002 := by
      rw [hp]
      show 0 ≤ (if _ ∧ _ ∧ (handleEvents.buttons a gtx).progress < 0.8
        then (handleEvents.buttons a gtx).progress + 0.002
        else (handleEvents.buttons a gtx).progress) ∧ _ ≤ 0.002
      rw [hp0]
      split_ifs <;> norm_num
    refine ⟨?_, ?_, ?_, ?_, ?_, ?_, ?_, ?_, ?_, ?_, hp0, hp1.1, hp1.2⟩ <;> rw [e, hb]
  · rw [← buttons_lastHandler a gtx, e]

theorem same_frame_precedence_witness :
    (Frame.several 0).submitBtn = true ∧ (Frame.several 0).resetBtn = true ∧
      (handleEvents submitted (Frame.several 0)).formSubmitted = false ∧
      (handleEvents submitted (Frame.several 0)).notification = GoString.lit "Form reset" ∧
      handleEvents.lastHandler (Frame.several 0) =
        some (true, GoString.lit "Form reset", AlertInfo) :=
  ⟨rfl, rfl, ((same_frame_precedence submitted (Frame.several 0)).1 rfl rfl).1,
    ((same_frame_precedence submitted (Frame.several 0)).1 rfl rfl).2.2.2.2.2.2.2.2.1, rfl⟩

/-- C19: `contains(s, substr)` never slices out of range and returns true exactly
when `substr` occurs as a contiguous part of `s`; it returns false when `substr`
is longer than `s`, and true for the empty `substr`, for every `s`, the empty one
included. -/
theorem contains_correct (s substr : GoString) :
    contains s substr = some (decide (substr <:+: s)) ∧
      (contains s substr = some true ↔ substr <:+: s) ∧
      (s.length < substr.length → contains s substr = some false) ∧
      contains s (GoString.lit "") = some true ∧
      contains (GoString.lit "") (GoString.lit "") = some true := by
  refine ⟨contains_spec s substr, ?_, ?_, ?_, by decide⟩
  · rw [contains_spec]; simp
  · intro h
    have hni : ¬ substr <:+: s := fun hi => absurd hi.length_le (not_le.mpr h)
    rw [contains_spec]; simp [hni]
  · rw [contains_spec, lit_empty]; simp

theorem contains_correct_witness :
    (GoString.lit "a").length < (GoString.lit "abc").length ∧
      contains (GoString.lit "a") (GoString.lit "abc") = some false ∧
      contains (GoString.lit "john@example.com") (GoString.lit "@ex") = some true :=
  ⟨by decide, (contains_correct (GoString.lit "a") (GoString.lit "abc")).2.2.1 (by decide),
    (contains_correct (GoString.lit "john@example.com") (GoString.lit "@ex")).2.1.mpr
      ⟨GoString.lit "john", GoString.lit "ample.com", by decide⟩⟩

/-- C21: the notification is never dismissed. `showNotification` is false in the
startup state; a frame leaves it true when it was true (after a frame it is true
exactly when it was true before or a button block ran); so once it is true
after some frames of a run it is true after every longer run, and
`renderNotificationSection` then draws the alert. -/
theorem notification_never_dismissed (t0 t1 : Int) (frames later : List (Frame × Widgets))
    (h : (run t0 t1 frames).showNotification = true) :
    (NewApp t0 t1).showNotification = false ∧
      (∀ (a : App) (gtx : Frame) (w : Widgets),
        (a.Layout gtx w).showNotification = (a.showNotification || gtx.anyClick)) ∧
      (∀ (a : App) (gtx : Frame) (w : Widgets), a.showNotification = true →
        (a.Layout gtx w).showNotification = true) ∧
      (run t0 t1 (frames ++ later)).showNotification = true ∧
      renderNotificationSection (run t0 t1 (frames ++ later)) =
        some (GoString.lit "Notification", (run t0 t1 (frames ++ later)).notification,
          (run t0 t1 (frames ++ later)).notificationType) := by
  have hl : (run t0 t1 (frames ++ later)).showNotification = true := by
    unfold run at h ⊢
    rw [List.foldl_append]
    exact foldl_showNotification later _ h
  refine ⟨rfl, layout_showNotification, ?_, hl, ?_⟩
  · intro a gtx w ha
    rw [layout_showNotification, ha]; rfl
  · unfold renderNotificationSection
    rw [hl]; rfl

theorem notification_never_dismissed_witness :
    (run 0 0 [(Frame.press 10000000 0, Widgets.blank)]).showNotification = true ∧
      (run 0 0 ([(Frame.press 10000000 0, Widgets.blank)] ++
        [(Frame.idle 70000000, Widgets.blank), (Frame.reset 130000000, Widgets.blank),
          (Frame.idle 190000000, Widgets.blank)])).showNotification = true := by
  have h : (run 0 0 [(Frame.press 10000000 0, Widgets.blank)]).showNotification = true := by
    show ((NewApp 0 0).Layout (Frame.press 10000000 0) Widgets.blank).showNotification = true
    rw [layout_showNotification]; rfl
  exact ⟨h, (notification_never_dismissed 0 0 [(Frame.press 10000000 0, Widgets.blank)]
    [(Frame.idle 70000000, Widgets.blank), (Frame.reset 130000000, Widgets.blank),
      (Frame.idle 190000000, Widgets.blank)] h).2.2.2.1⟩

end UIKitDemo
